import Mathlib

/-!
Shallow embedding of `src/app/src/my_state_machine.c`, a Zephyr-SMF flat
state machine with four states (character entry, string build, string
confirm, standby).

Modelling conventions:
* The Zephyr SMF dispatcher is flat here (no ancestors).  `smf_set_state`
  runs the exit action of the current state, updates `ctx.current`, and
  runs the entry action of the new state, all inline; the calling run
  handler then simply continues executing.  All exit actions in this
  program only call `printk`/`LED_set`, so they do not touch the context.
* External collaborators: `k_uptime_get_32()` is modelled as the `t` field
  of the per-tick input; `BTN_is_pressed` as the `held0`/`held1` fields
  (only queried for BTN0/BTN1); `BTN_check_clear_pressed` as the
  `edge0`..`edge3` fields (each run handler reads each button's edge at
  most once per tick, so a per-tick boolean is an exact model of the
  destructive read).  `LED_set`/`LED_pwm`/`printk` are pure output side
  effects with no feedback into the context and are not modelled.
* `uint8_t`/`uint32_t` fields are `Nat`.  A `% 256` is written exactly
  where the C expression can exceed the type's range
  (`current_char |= 1 << bit_count`, `pwm_duty += 2`); all other
  arithmetic on the narrow fields is guarded by comparisons in the source
  so that overflow cannot occur there.  The `uint32_t` subtraction
  `current_time - hold_start` is modelled by `u32_sub`.
-/

namespace EiE

/-- The four values of `enum state_machine_states`. -/
inductive SMState where
  | charEntry
  | stringBuild
  | stringConfirm
  | standby
deriving DecidableEq, Repr

/-- Everything a single `state_machine_run` tick reads from the outside
world: the `k_uptime_get_32()` value, the two `BTN_is_pressed` levels the
standby detector queries, and the four pending `BTN_check_clear_pressed`
edges. -/
structure TickInput where
  t : Nat
  held0 : Bool
  held1 : Bool
  edge0 : Bool
  edge1 : Bool
  edge2 : Bool
  edge3 : Bool
deriving DecidableEq, Repr

/-- The fields of `state_machine_context` (minus the SMF bookkeeping
struct, whose only modelled part is `ctx.current`, kept here as
`current`).  `string_buffer` is the 64-byte array `char [64]`. -/
structure Machine where
  current : SMState
  string_buffer : List Nat
  string_length : Nat
  current_char : Nat
  bit_count : Nat
  btn0_hold_start : Nat
  btn1_hold_start : Nat
  btn0_held : Bool
  btn1_held : Bool
  previous_state : SMState
  led_blink_counter : Nat
  led3_state : Bool
  led0_blink_timer : Nat
  led1_blink_timer : Nat
  pwm_duty : Nat
  pwm_increasing : Bool
deriving DecidableEq, Repr

/-- MAX_STRING_LENGTH. -/
def MAX_STRING_LENGTH : Nat := 64

/-- STANDBY_HOLD_TIME_MS. -/
def STANDBY_HOLD_TIME_MS : Nat := 3000

/-- BLINK_INDICATOR_TIME_MS. -/
def BLINK_INDICATOR_TIME_MS : Nat := 100

/-- 2^32, the modulus of `uint32_t` arithmetic. -/
def U32 : Nat := 4294967296

/-- uint32_t subtraction `a - b` (wraparound semantics). -/
def u32_sub (a b : Nat) : Nat := (a + (U32 - b % U32)) % U32

/-- Entry action of CHAR_ENTRY_STATE (`char_entry_state_entry`); the LED
calls are external side effects. -/
def char_entry_state_entry (m : Machine) : Machine :=
  { m with current_char := 0, bit_count := 0, led_blink_counter := 0,
           led3_state := false, led0_blink_timer := 0, led1_blink_timer := 0 }

/-- Entry action of STRING_BUILD_STATE (`string_build_state_entry`). -/
def string_build_state_entry (m : Machine) : Machine :=
  { m with current_char := 0, bit_count := 0, led_blink_counter := 0,
           led3_state := false, led0_blink_timer := 0, led1_blink_timer := 0 }

/-- Entry action of STRING_CONFIRM_STATE (`string_confirm_state_entry`). -/
def string_confirm_state_entry (m : Machine) : Machine :=
  { m with led_blink_counter := 0, led3_state := false }

/-- Entry action of STANDBY_STATE (`standby_state_entry`). -/
def standby_state_entry (m : Machine) : Machine :=
  { m with pwm_duty := 0, pwm_increasing := true }

/-- Dispatch to a state's entry action. -/
def state_entry : SMState → Machine → Machine
  | .charEntry => char_entry_state_entry
  | .stringBuild => string_build_state_entry
  | .stringConfirm => string_confirm_state_entry
  | .standby => standby_state_entry

/-- `smf_set_state`: run the current state's exit action (every exit
action in this program leaves the context untouched), update
`ctx.current`, run the new state's entry action. -/
def smf_set_state (m : Machine) (s : SMState) : Machine :=
  state_entry s { m with current := s }

/-- The helper `check_standby_transition`, called first by every
non-standby run handler. -/
def check_standby_transition (m : Machine) (i : TickInput) : Machine :=
  let m : Machine :=
    if i.held0 then
      if !m.btn0_held then
        { m with btn0_held := true, btn0_hold_start := i.t }
      else m
    else { m with btn0_held := false }
  let m : Machine :=
    if i.held1 then
      if !m.btn1_held then
        { m with btn1_held := true, btn1_hold_start := i.t }
      else m
    else { m with btn1_held := false }
  if m.btn0_held && m.btn1_held then
    let btn0_duration := u32_sub i.t m.btn0_hold_start
    let btn1_duration := u32_sub i.t m.btn1_hold_start
    if STANDBY_HOLD_TIME_MS ≤ btn0_duration ∧ STANDBY_HOLD_TIME_MS ≤ btn1_duration then
      let m := { m with previous_state := m.current }
      let m := smf_set_state m .standby
      { m with btn0_held := false, btn1_held := false }
    else m
  else m

/-- `state_machine_init`: `memset(&state_object, 0, ...)` followed by
`smf_set_initial(..., CHAR_ENTRY_STATE)`, which sets `ctx.current` and
runs the initial state's entry action.  The all-zero context has
`previous_state = CHAR_ENTRY_STATE` (enum value 0). -/
def state_machine_init : Machine :=
  char_entry_state_entry
    { current := .charEntry
      string_buffer := List.replicate MAX_STRING_LENGTH 0
      string_length := 0
      current_char := 0
      bit_count := 0
      btn0_hold_start := 0
      btn1_hold_start := 0
      btn0_held := false
      btn1_held := false
      previous_state := .charEntry
      led_blink_counter := 0
      led3_state := false
      led0_blink_timer := 0
      led1_blink_timer := 0
      pwm_duty := 0
      pwm_increasing := false }

/-- The LED3 heartbeat block shared by the three non-standby run actions
(they differ only in the toggle threshold: 500, 125, 31). -/
def led3_blink_step (threshold : Nat) (m : Machine) : Machine :=
  let c := m.led_blink_counter + 1
  if threshold ≤ c then
    { m with led3_state := !m.led3_state, led_blink_counter := 0 }
  else { m with led_blink_counter := c }

/-- The LED0 input-indicator decay block of the CharEntry/StringBuild run
actions. -/
def led0_indicator_step (m : Machine) : Machine :=
  if 0 < m.led0_blink_timer then
    let tmr := m.led0_blink_timer + 1
    if BLINK_INDICATOR_TIME_MS ≤ tmr then { m with led0_blink_timer := 0 }
    else { m with led0_blink_timer := tmr }
  else m

/-- The LED1 input-indicator decay block of the CharEntry/StringBuild run
actions. -/
def led1_indicator_step (m : Machine) : Machine :=
  if 0 < m.led1_blink_timer then
    let tmr := m.led1_blink_timer + 1
    if BLINK_INDICATOR_TIME_MS ≤ tmr then { m with led1_blink_timer := 0 }
    else { m with led1_blink_timer := tmr }
  else m

/-- The BTN0 (bit 0) block of `char_entry_state_run`. -/
def char_entry_btn0_step (m : Machine) (i : TickInput) : Machine :=
  if i.edge0 then
    if m.bit_count < 8 then
      { m with bit_count := m.bit_count + 1, led0_blink_timer := 1 }
    else m
  else m

/-- The BTN1 (bit 1) block of `char_entry_state_run`. -/
def char_entry_btn1_step (m : Machine) (i : TickInput) : Machine :=
  if i.edge1 then
    if m.bit_count < 8 then
      { m with current_char := (m.current_char ||| (1 <<< m.bit_count)) % 256,
               bit_count := m.bit_count + 1, led1_blink_timer := 1 }
    else m
  else m

/-- The BTN2 (reset current character) block of `char_entry_state_run`. -/
def char_entry_btn2_step (m : Machine) (i : TickInput) : Machine :=
  if i.edge2 then { m with current_char := 0, bit_count := 0 } else m

/-- The BTN3 (save character) block of `char_entry_state_run`. -/
def char_entry_btn3_step (m : Machine) (i : TickInput) : Machine :=
  if i.edge3 then
    if m.bit_count = 8 then
      if m.string_length < MAX_STRING_LENGTH - 1 then
        let buf := (m.string_buffer.set m.string_length m.current_char).set
          (m.string_length + 1) 0
        smf_set_state
          { m with string_buffer := buf, string_length := m.string_length + 1 }
          .stringBuild
      else m
    else m
  else m

/-- Run action of CHAR_ENTRY_STATE (`char_entry_state_run`). -/
def char_entry_state_run (m : Machine) (i : TickInput) : Machine :=
  let m := check_standby_transition m i
  if m.current = .standby then m else
  char_entry_btn3_step
    (char_entry_btn2_step
      (char_entry_btn1_step
        (char_entry_btn0_step
          (led1_indicator_step (led0_indicator_step (led3_blink_step 500 m))) i) i) i) i

/-- The BTN0 (bit 0, with auto-commit rollover) block of
`string_build_state_run`. -/
def string_build_btn0_step (m : Machine) (i : TickInput) : Machine :=
  if i.edge0 then
    if m.bit_count < 8 then
      { m with bit_count := m.bit_count + 1, led0_blink_timer := 1 }
    else if m.bit_count = 8 then
      if m.string_length < MAX_STRING_LENGTH - 1 then
        let buf := (m.string_buffer.set m.string_length m.current_char).set
          (m.string_length + 1) 0
        { m with string_buffer := buf, string_length := m.string_length + 1,
                 current_char := 0, bit_count := 1, led0_blink_timer := 1 }
      else m
    else m
  else m

/-- The BTN1 (bit 1, with auto-commit rollover) block of
`string_build_state_run`. -/
def string_build_btn1_step (m : Machine) (i : TickInput) : Machine :=
  if i.edge1 then
    if m.bit_count < 8 then
      { m with current_char := (m.current_char ||| (1 <<< m.bit_count)) % 256,
               bit_count := m.bit_count + 1, led1_blink_timer := 1 }
    else if m.bit_count = 8 then
      if m.string_length < MAX_STRING_LENGTH - 1 then
        let buf := (m.string_buffer.set m.string_length m.current_char).set
          (m.string_length + 1) 0
        { m with string_buffer := buf, string_length := m.string_length + 1,
                 current_char := 1, bit_count := 1, led1_blink_timer := 1 }
      else m
    else m
  else m

/-- The BTN2 (delete entire string) block of `string_build_state_run`. -/
def string_build_btn2_step (m : Machine) (i : TickInput) : Machine :=
  if i.edge2 then
    smf_set_state
      { m with string_buffer := List.replicate MAX_STRING_LENGTH 0,
               string_length := 0 }
      .charEntry
  else m

/-- The BTN3 (save pending character, then finalize) block of
`string_build_state_run`. -/
def string_build_btn3_step (m : Machine) (i : TickInput) : Machine :=
  if i.edge3 then
    let m : Machine :=
      if m.bit_count = 8 ∧ m.string_length < MAX_STRING_LENGTH - 1 then
        let buf := (m.string_buffer.set m.string_length m.current_char).set
          (m.string_length + 1) 0
        { m with string_buffer := buf, string_length := m.string_length + 1 }
      else m
    smf_set_state m .stringConfirm
  else m

/-- Run action of STRING_BUILD_STATE (`string_build_state_run`). -/
def string_build_state_run (m : Machine) (i : TickInput) : Machine :=
  let m := check_standby_transition m i
  if m.current = .standby then m else
  string_build_btn3_step
    (string_build_btn2_step
      (string_build_btn1_step
        (string_build_btn0_step
          (led1_indicator_step (led0_indicator_step (led3_blink_step 125 m))) i) i) i) i

/-- The BTN2 (delete and restart) block of `string_confirm_state_run`. -/
def string_confirm_btn2_step (m : Machine) (i : TickInput) : Machine :=
  if i.edge2 then
    smf_set_state
      { m with string_buffer := List.replicate MAX_STRING_LENGTH 0,
               string_length := 0 }
      .charEntry
  else m

/-- The BTN3 (send, then reset) block of `string_confirm_state_run`.  The
transmission itself is an external side effect. -/
def string_confirm_btn3_step (m : Machine) (i : TickInput) : Machine :=
  if i.edge3 then
    smf_set_state
      { m with string_buffer := List.replicate MAX_STRING_LENGTH 0,
               string_length := 0 }
      .charEntry
  else m

/-- Run action of STRING_CONFIRM_STATE (`string_confirm_state_run`). -/
def string_confirm_state_run (m : Machine) (i : TickInput) : Machine :=
  let m := check_standby_transition m i
  if m.current = .standby then m else
  string_confirm_btn3_step (string_confirm_btn2_step (led3_blink_step 31 m) i) i

/-- The PWM-ramp block of `standby_state_run`. -/
def standby_pwm_step (m : Machine) : Machine :=
  if m.pwm_increasing then
    let d := (m.pwm_duty + 2) % 256
    if 100 ≤ d then { m with pwm_duty := 100, pwm_increasing := false }
    else { m with pwm_duty := d }
  else
    if 2 ≤ m.pwm_duty then { m with pwm_duty := m.pwm_duty - 2 }
    else { m with pwm_duty := 0, pwm_increasing := true }

/-- The any-button exit check of `standby_state_run`. -/
def standby_button_step (m : Machine) (i : TickInput) : Machine :=
  if i.edge0 || i.edge1 || i.edge2 || i.edge3 then
    smf_set_state m m.previous_state
  else m

/-- Run action of STANDBY_STATE (`standby_state_run`). -/
def standby_state_run (m : Machine) (i : TickInput) : Machine :=
  standby_button_step (standby_pwm_step m) i

/-- `state_machine_run`, via `smf_run_state`: dispatch one tick to the
current state's run action. -/
def state_machine_run (m : Machine) (i : TickInput) : Machine :=
  match m.current with
  | .charEntry => char_entry_state_run m i
  | .stringBuild => string_build_state_run m i
  | .stringConfirm => string_confirm_state_run m i
  | .standby => standby_state_run m i

/-! ## Derived driver functions used by the claims -/

/-- A tick carrying a single bit-press edge: BTN1 (bit 1) when `b`,
BTN0 (bit 0) otherwise; no buttons held, no other edges. -/
def bitInput (t : Nat) (b : Bool) : TickInput :=
  { t := t, held0 := false, held1 := false,
    edge0 := !b, edge1 := b, edge2 := false, edge3 := false }

/-- Feed a list of bit edges, one per tick (tick times are irrelevant to
the bit-accumulation logic). -/
def feedBits (m : Machine) : List Bool → Machine
  | [] => m
  | b :: bs => feedBits (state_machine_run m (bitInput 0 b)) bs

/-- The number denoted by a bit list, least-significant bit first. -/
def bitsVal : List Bool → Nat
  | [] => 0
  | b :: bs => (if b then 1 else 0) + 2 * bitsVal bs

/-- Tick input number `k` of a button-hold experiment: consecutive
millisecond clock readings `t0 + k`, hold levels given by `f0`/`f1`,
and no press edges. -/
def holdInput (t0 : Nat) (f0 f1 : Nat → Bool) (k : Nat) : TickInput :=
  { t := t0 + k, held0 := f0 k, held1 := f1 k,
    edge0 := false, edge1 := false, edge2 := false, edge3 := false }

/-- Run `n` consecutive ticks of a button-hold experiment. -/
def feedHolds (m : Machine) (t0 : Nat) (f0 f1 : Nat → Bool) : Nat → Machine
  | 0 => m
  | n + 1 => state_machine_run (feedHolds m t0 f0 f1 n) (holdInput t0 f0 f1 n)

/-- Number of consecutive `true` samples of `f` ending at index `k`
(resets to zero at every `false` sample). -/
def streak (f : Nat → Bool) : Nat → Nat
  | 0 => if f 0 then 1 else 0
  | k + 1 => if f (k + 1) then streak f k + 1 else 0

/-- The hold level a button had at the tick before tick `n` (`false`
before the experiment starts). -/
def prevHeld (f : Nat → Bool) : Nat → Bool
  | 0 => false
  | k + 1 => f k

/-- The streak ending just before tick `n`. -/
def prevStreak (f : Nat → Bool) : Nat → Nat
  | 0 => 0
  | k + 1 => streak f k

/-- Invariant statement of claim C10: whenever the machine is in Standby,
the saved state to resume to is not Standby itself. -/
def PrevInv (m : Machine) : Prop :=
  m.current = .standby → m.previous_state ≠ .standby

/-! ## Projection lemmas for `smf_set_state` and the per-block steps -/

@[simp] lemma smf_set_state_current (m : Machine) (s : SMState) :
    (smf_set_state m s).current = s := by
  cases s <;> rfl

@[simp] lemma smf_set_state_string_buffer (m : Machine) (s : SMState) :
    (smf_set_state m s).string_buffer = m.string_buffer := by
  cases s <;> rfl

@[simp] lemma smf_set_state_string_length (m : Machine) (s : SMState) :
    (smf_set_state m s).string_length = m.string_length := by
  cases s <;> rfl

@[simp] lemma smf_set_state_btn0_held (m : Machine) (s : SMState) :
    (smf_set_state m s).btn0_held = m.btn0_held := by
  cases s <;> rfl

@[simp] lemma smf_set_state_btn1_held (m : Machine) (s : SMState) :
    (smf_set_state m s).btn1_held = m.btn1_held := by
  cases s <;> rfl

@[simp] lemma smf_set_state_btn0_hold_start (m : Machine) (s : SMState) :
    (smf_set_state m s).btn0_hold_start = m.btn0_hold_start := by
  cases s <;> rfl

@[simp] lemma smf_set_state_btn1_hold_start (m : Machine) (s : SMState) :
    (smf_set_state m s).btn1_hold_start = m.btn1_hold_start := by
  cases s <;> rfl

@[simp] lemma smf_set_state_previous_state (m : Machine) (s : SMState) :
    (smf_set_state m s).previous_state = m.previous_state := by
  cases s <;> rfl

@[simp] lemma smf_set_state_pwm_duty (m : Machine) (s : SMState) (h : s ≠ .standby) :
    (smf_set_state m s).pwm_duty = m.pwm_duty := by
  cases s <;> simp_all <;> rfl

@[simp] lemma check_standby_string_buffer (m : Machine) (i : TickInput) :
    (check_standby_transition m i).string_buffer = m.string_buffer := by
  simp only [check_standby_transition]
  split_ifs <;> simp

@[simp] lemma check_standby_string_length (m : Machine) (i : TickInput) :
    (check_standby_transition m i).string_length = m.string_length := by
  simp only [check_standby_transition]
  split_ifs <;> simp

@[simp] lemma check_standby_current_char (m : Machine) (i : TickInput) :
    (check_standby_transition m i).current_char = m.current_char := by
  simp only [check_standby_transition, smf_set_state, state_entry, standby_state_entry]
  split_ifs <;> rfl

@[simp] lemma check_standby_bit_count (m : Machine) (i : TickInput) :
    (check_standby_transition m i).bit_count = m.bit_count := by
  simp only [check_standby_transition, smf_set_state, state_entry, standby_state_entry]
  split_ifs <;> rfl

@[simp] lemma check_standby_led_blink_counter (m : Machine) (i : TickInput) :
    (check_standby_transition m i).led_blink_counter = m.led_blink_counter := by
  simp only [check_standby_transition, smf_set_state, state_entry, standby_state_entry]
  split_ifs <;> rfl

@[simp] lemma check_standby_led0_blink_timer (m : Machine) (i : TickInput) :
    (check_standby_transition m i).led0_blink_timer = m.led0_blink_timer := by
  simp only [check_standby_transition, smf_set_state, state_entry, standby_state_entry]
  split_ifs <;> rfl

@[simp] lemma check_standby_led1_blink_timer (m : Machine) (i : TickInput) :
    (check_standby_transition m i).led1_blink_timer = m.led1_blink_timer := by
  simp only [check_standby_transition, smf_set_state, state_entry, standby_state_entry]
  split_ifs <;> rfl

lemma check_standby_current_cases (m : Machine) (i : TickInput) :
    (check_standby_transition m i).current = m.current ∨
      ((check_standby_transition m i).current = .standby ∧
        (check_standby_transition m i).previous_state = m.current) := by
  simp only [check_standby_transition]
  split_ifs <;> simp

lemma check_standby_previous_state_cases (m : Machine) (i : TickInput) :
    (check_standby_transition m i).previous_state = m.previous_state ∨
      (check_standby_transition m i).previous_state = m.current := by
  simp only [check_standby_transition]
  split_ifs <;> simp

@[simp] lemma led3_blink_step_current (thr : Nat) (m : Machine) :
    (led3_blink_step thr m).current = m.current := by
  simp only [led3_blink_step]; split_ifs <;> rfl

@[simp] lemma led3_blink_step_string_buffer (thr : Nat) (m : Machine) :
    (led3_blink_step thr m).string_buffer = m.string_buffer := by
  simp only [led3_blink_step]; split_ifs <;> rfl

@[simp] lemma led3_blink_step_string_length (thr : Nat) (m : Machine) :
    (led3_blink_step thr m).string_length = m.string_length := by
  simp only [led3_blink_step]; split_ifs <;> rfl

@[simp] lemma led3_blink_step_current_char (thr : Nat) (m : Machine) :
    (led3_blink_step thr m).current_char = m.current_char := by
  simp only [led3_blink_step]; split_ifs <;> rfl

@[simp] lemma led3_blink_step_bit_count (thr : Nat) (m : Machine) :
    (led3_blink_step thr m).bit_count = m.bit_count := by
  simp only [led3_blink_step]; split_ifs <;> rfl

@[simp] lemma led3_blink_step_btn0_held (thr : Nat) (m : Machine) :
    (led3_blink_step thr m).btn0_held = m.btn0_held := by
  simp only [led3_blink_step]; split_ifs <;> rfl

@[simp] lemma led3_blink_step_btn1_held (thr : Nat) (m : Machine) :
    (led3_blink_step thr m).btn1_held = m.btn1_held := by
  simp only [led3_blink_step]; split_ifs <;> rfl

@[simp] lemma led3_blink_step_btn0_hold_start (thr : Nat) (m : Machine) :
    (led3_blink_step thr m).btn0_hold_start = m.btn0_hold_start := by
  simp only [led3_blink_step]; split_ifs <;> rfl

@[simp] lemma led3_blink_step_btn1_hold_start (thr : Nat) (m : Machine) :
    (led3_blink_step thr m).btn1_hold_start = m.btn1_hold_start := by
  simp only [led3_blink_step]; split_ifs <;> rfl

@[simp] lemma led3_blink_step_previous_state (thr : Nat) (m : Machine) :
    (led3_blink_step thr m).previous_state = m.previous_state := by
  simp only [led3_blink_step]; split_ifs <;> rfl

@[simp] lemma led3_blink_step_led0_blink_timer (thr : Nat) (m : Machine) :
    (led3_blink_step thr m).led0_blink_timer = m.led0_blink_timer := by
  simp only [led3_blink_step]; split_ifs <;> rfl

@[simp] lemma led3_blink_step_led1_blink_timer (thr : Nat) (m : Machine) :
    (led3_blink_step thr m).led1_blink_timer = m.led1_blink_timer := by
  simp only [led3_blink_step]; split_ifs <;> rfl

@[simp] lemma led0_indicator_step_current (m : Machine) :
    (led0_indicator_step m).current = m.current := by
  simp only [led0_indicator_step]; split_ifs <;> rfl

@[simp] lemma led0_indicator_step_string_buffer (m : Machine) :
    (led0_indicator_step m).string_buffer = m.string_buffer := by
  simp only [led0_indicator_step]; split_ifs <;> rfl

@[simp] lemma led0_indicator_step_string_length (m : Machine) :
    (led0_indicator_step m).string_length = m.string_length := by
  simp only [led0_indicator_step]; split_ifs <;> rfl

@[simp] lemma led0_indicator_step_current_char (m : Machine) :
    (led0_indicator_step m).current_char = m.current_char := by
  simp only [led0_indicator_step]; split_ifs <;> rfl

@[simp] lemma led0_indicator_step_bit_count (m : Machine) :
    (led0_indicator_step m).bit_count = m.bit_count := by
  simp only [led0_indicator_step]; split_ifs <;> rfl

@[simp] lemma led0_indicator_step_btn0_held (m : Machine) :
    (led0_indicator_step m).btn0_held = m.btn0_held := by
  simp only [led0_indicator_step]; split_ifs <;> rfl

@[simp] lemma led0_indicator_step_btn1_held (m : Machine) :
    (led0_indicator_step m).btn1_held = m.btn1_held := by
  simp only [led0_indicator_step]; split_ifs <;> rfl

@[simp] lemma led0_indicator_step_btn0_hold_start (m : Machine) :
    (led0_indicator_step m).btn0_hold_start = m.btn0_hold_start := by
  simp only [led0_indicator_step]; split_ifs <;> rfl

@[simp] lemma led0_indicator_step_btn1_hold_start (m : Machine) :
    (led0_indicator_step m).btn1_hold_start = m.btn1_hold_start := by
  simp only [led0_indicator_step]; split_ifs <;> rfl

@[simp] lemma led0_indicator_step_previous_state (m : Machine) :
    (led0_indicator_step m).previous_state = m.previous_state := by
  simp only [led0_indicator_step]; split_ifs <;> rfl

@[simp] lemma led1_indicator_step_current (m : Machine) :
    (led1_indicator_step m).current = m.current := by
  simp only [led1_indicator_step]; split_ifs <;> rfl

@[simp] lemma led1_indicator_step_string_buffer (m : Machine) :
    (led1_indicator_step m).string_buffer = m.string_buffer := by
  simp only [led1_indicator_step]; split_ifs <;> rfl

@[simp] lemma led1_indicator_step_string_length (m : Machine) :
    (led1_indicator_step m).string_length = m.string_length := by
  simp only [led1_indicator_step]; split_ifs <;> rfl

@[simp] lemma led1_indicator_step_current_char (m : Machine) :
    (led1_indicator_step m).current_char = m.current_char := by
  simp only [led1_indicator_step]; split_ifs <;> rfl

@[simp] lemma led1_indicator_step_bit_count (m : Machine) :
    (led1_indicator_step m).bit_count = m.bit_count := by
  simp only [led1_indicator_step]; split_ifs <;> rfl

@[simp] lemma led1_indicator_step_btn0_held (m : Machine) :
    (led1_indicator_step m).btn0_held = m.btn0_held := by
  simp only [led1_indicator_step]; split_ifs <;> rfl

@[simp] lemma led1_indicator_step_btn1_held (m : Machine) :
    (led1_indicator_step m).btn1_held = m.btn1_held := by
  simp only [led1_indicator_step]; split_ifs <;> rfl

@[simp] lemma led1_indicator_step_btn0_hold_start (m : Machine) :
    (led1_indicator_step m).btn0_hold_start = m.btn0_hold_start := by
  simp only [led1_indicator_step]; split_ifs <;> rfl

@[simp] lemma led1_indicator_step_btn1_hold_start (m : Machine) :
    (led1_indicator_step m).btn1_hold_start = m.btn1_hold_start := by
  simp only [led1_indicator_step]; split_ifs <;> rfl

@[simp] lemma led1_indicator_step_previous_state (m : Machine) :
    (led1_indicator_step m).previous_state = m.previous_state := by
  simp only [led1_indicator_step]; split_ifs <;> rfl

/-! Button blocks collapse to the identity when their edge is absent. -/

@[simp] lemma char_entry_btn0_step_no_edge (m : Machine) (i : TickInput)
    (h : i.edge0 = false) : char_entry_btn0_step m i = m := by
  simp [char_entry_btn0_step, h]

@[simp] lemma char_entry_btn1_step_no_edge (m : Machine) (i : TickInput)
    (h : i.edge1 = false) : char_entry_btn1_step m i = m := by
  simp [char_entry_btn1_step, h]

@[simp] lemma char_entry_btn2_step_no_edge (m : Machine) (i : TickInput)
    (h : i.edge2 = false) : char_entry_btn2_step m i = m := by
  simp [char_entry_btn2_step, h]

@[simp] lemma char_entry_btn3_step_no_edge (m : Machine) (i : TickInput)
    (h : i.edge3 = false) : char_entry_btn3_step m i = m := by
  simp [char_entry_btn3_step, h]

@[simp] lemma string_build_btn0_step_no_edge (m : Machine) (i : TickInput)
    (h : i.edge0 = false) : string_build_btn0_step m i = m := by
  simp [string_build_btn0_step, h]

@[simp] lemma string_build_btn1_step_no_edge (m : Machine) (i : TickInput)
    (h : i.edge1 = false) : string_build_btn1_step m i = m := by
  simp [string_build_btn1_step, h]

@[simp] lemma string_build_btn2_step_no_edge (m : Machine) (i : TickInput)
    (h : i.edge2 = false) : string_build_btn2_step m i = m := by
  simp [string_build_btn2_step, h]

@[simp] lemma string_build_btn3_step_no_edge (m : Machine) (i : TickInput)
    (h : i.edge3 = false) : string_build_btn3_step m i = m := by
  simp [string_build_btn3_step, h]

@[simp] lemma string_confirm_btn2_step_no_edge (m : Machine) (i : TickInput)
    (h : i.edge2 = false) : string_confirm_btn2_step m i = m := by
  simp [string_confirm_btn2_step, h]

@[simp] lemma string_confirm_btn3_step_no_edge (m : Machine) (i : TickInput)
    (h : i.edge3 = false) : string_confirm_btn3_step m i = m := by
  simp [string_confirm_btn3_step, h]

/-! String-length behavior of each block, for the capacity invariant. -/

@[simp] lemma char_entry_btn0_step_string_length (m : Machine) (i : TickInput) :
    (char_entry_btn0_step m i).string_length = m.string_length := by
  simp only [char_entry_btn0_step]; split_ifs <;> rfl

@[simp] lemma char_entry_btn1_step_string_length (m : Machine) (i : TickInput) :
    (char_entry_btn1_step m i).string_length = m.string_length := by
  simp only [char_entry_btn1_step]; split_ifs <;> rfl

@[simp] lemma char_entry_btn2_step_string_length (m : Machine) (i : TickInput) :
    (char_entry_btn2_step m i).string_length = m.string_length := by
  simp only [char_entry_btn2_step]; split_ifs <;> rfl

lemma char_entry_btn3_step_length_le (m : Machine) (i : TickInput)
    (h : m.string_length ≤ 63) : (char_entry_btn3_step m i).string_length ≤ 63 := by
  simp only [char_entry_btn3_step, MAX_STRING_LENGTH]
  split_ifs <;> (try simp) <;> omega

lemma string_build_btn0_step_length_le (m : Machine) (i : TickInput)
    (h : m.string_length ≤ 63) : (string_build_btn0_step m i).string_length ≤ 63 := by
  simp only [string_build_btn0_step, MAX_STRING_LENGTH]
  split_ifs <;> (try simp) <;> omega

lemma string_build_btn1_step_length_le (m : Machine) (i : TickInput)
    (h : m.string_length ≤ 63) : (string_build_btn1_step m i).string_length ≤ 63 := by
  simp only [string_build_btn1_step, MAX_STRING_LENGTH]
  split_ifs <;> (try simp) <;> omega

lemma string_build_btn2_step_length_le (m : Machine) (i : TickInput)
    (h : m.string_length ≤ 63) : (string_build_btn2_step m i).string_length ≤ 63 := by
  simp only [string_build_btn2_step]
  split_ifs <;> (try simp) <;> omega

lemma string_build_btn3_step_length_le (m : Machine) (i : TickInput)
    (h : m.string_length ≤ 63) : (string_build_btn3_step m i).string_length ≤ 63 := by
  simp only [string_build_btn3_step, MAX_STRING_LENGTH]
  split_ifs <;> (try simp) <;> omega

lemma string_confirm_btn2_step_length_le (m : Machine) (i : TickInput)
    (h : m.string_length ≤ 63) : (string_confirm_btn2_step m i).string_length ≤ 63 := by
  simp only [string_confirm_btn2_step]
  split_ifs <;> (try simp) <;> omega

lemma string_confirm_btn3_step_length_le (m : Machine) (i : TickInput)
    (h : m.string_length ≤ 63) : (string_confirm_btn3_step m i).string_length ≤ 63 := by
  simp only [string_confirm_btn3_step]
  split_ifs <;> (try simp) <;> omega

@[simp] lemma standby_pwm_step_string_length (m : Machine) :
    (standby_pwm_step m).string_length = m.string_length := by
  simp only [standby_pwm_step]; split_ifs <;> rfl

@[simp] lemma standby_button_step_string_length (m : Machine) (i : TickInput) :
    (standby_button_step m i).string_length = m.string_length := by
  simp only [standby_button_step]
  split_ifs <;> simp

/-! Current-state and `previous_state` behavior of the button blocks. -/

@[simp] lemma char_entry_btn0_step_current (m : Machine) (i : TickInput) :
    (char_entry_btn0_step m i).current = m.current := by
  simp only [char_entry_btn0_step]; split_ifs <;> rfl

@[simp] lemma char_entry_btn1_step_current (m : Machine) (i : TickInput) :
    (char_entry_btn1_step m i).current = m.current := by
  simp only [char_entry_btn1_step]; split_ifs <;> rfl

@[simp] lemma char_entry_btn2_step_current (m : Machine) (i : TickInput) :
    (char_entry_btn2_step m i).current = m.current := by
  simp only [char_entry_btn2_step]; split_ifs <;> rfl

lemma char_entry_btn3_step_current_cases (m : Machine) (i : TickInput) :
    (char_entry_btn3_step m i).current = m.current ∨
      (char_entry_btn3_step m i).current = .stringBuild := by
  simp only [char_entry_btn3_step]
  split_ifs <;> simp

@[simp] lemma string_build_btn0_step_current (m : Machine) (i : TickInput) :
    (string_build_btn0_step m i).current = m.current := by
  simp only [string_build_btn0_step]; split_ifs <;> rfl

@[simp] lemma string_build_btn1_step_current (m : Machine) (i : TickInput) :
    (string_build_btn1_step m i).current = m.current := by
  simp only [string_build_btn1_step]; split_ifs <;> rfl

lemma string_build_btn2_step_current_cases (m : Machine) (i : TickInput) :
    (string_build_btn2_step m i).current = m.current ∨
      (string_build_btn2_step m i).current = .charEntry := by
  simp only [string_build_btn2_step]
  split_ifs <;> simp

lemma string_build_btn3_step_current_cases (m : Machine) (i : TickInput) :
    (string_build_btn3_step m i).current = m.current ∨
      (string_build_btn3_step m i).current = .stringConfirm := by
  simp only [string_build_btn3_step]
  split_ifs <;> simp

lemma string_confirm_btn2_step_current_cases (m : Machine) (i : TickInput) :
    (string_confirm_btn2_step m i).current = m.current ∨
      (string_confirm_btn2_step m i).current = .charEntry := by
  simp only [string_confirm_btn2_step]
  split_ifs <;> simp

lemma string_confirm_btn3_step_current_cases (m : Machine) (i : TickInput) :
    (string_confirm_btn3_step m i).current = m.current ∨
      (string_confirm_btn3_step m i).current = .charEntry := by
  simp only [string_confirm_btn3_step]
  split_ifs <;> simp

@[simp] lemma char_entry_btn0_step_previous_state (m : Machine) (i : TickInput) :
    (char_entry_btn0_step m i).previous_state = m.previous_state := by
  simp only [char_entry_btn0_step]; split_ifs <;> rfl

@[simp] lemma char_entry_btn1_step_previous_state (m : Machine) (i : TickInput) :
    (char_entry_btn1_step m i).previous_state = m.previous_state := by
  simp only [char_entry_btn1_step]; split_ifs <;> rfl

@[simp] lemma char_entry_btn2_step_previous_state (m : Machine) (i : TickInput) :
    (char_entry_btn2_step m i).previous_state = m.previous_state := by
  simp only [char_entry_btn2_step]; split_ifs <;> rfl

@[simp] lemma char_entry_btn3_step_previous_state (m : Machine) (i : TickInput) :
    (char_entry_btn3_step m i).previous_state = m.previous_state := by
  simp only [char_entry_btn3_step]
  split_ifs <;> simp

@[simp] lemma string_build_btn0_step_previous_state (m : Machine) (i : TickInput) :
    (string_build_btn0_step m i).previous_state = m.previous_state := by
  simp only [string_build_btn0_step]; split_ifs <;> rfl

@[simp] lemma string_build_btn1_step_previous_state (m : Machine) (i : TickInput) :
    (string_build_btn1_step m i).previous_state = m.previous_state := by
  simp only [string_build_btn1_step]; split_ifs <;> rfl

@[simp] lemma string_build_btn2_step_previous_state (m : Machine) (i : TickInput) :
    (string_build_btn2_step m i).previous_state = m.previous_state := by
  simp only [string_build_btn2_step]
  split_ifs <;> simp

@[simp] lemma string_build_btn3_step_previous_state (m : Machine) (i : TickInput) :
    (string_build_btn3_step m i).previous_state = m.previous_state := by
  simp only [string_build_btn3_step]
  split_ifs <;> simp

@[simp] lemma string_confirm_btn2_step_previous_state (m : Machine) (i : TickInput) :
    (string_confirm_btn2_step m i).previous_state = m.previous_state := by
  simp only [string_confirm_btn2_step]
  split_ifs <;> simp

@[simp] lemma string_confirm_btn3_step_previous_state (m : Machine) (i : TickInput) :
    (string_confirm_btn3_step m i).previous_state = m.previous_state := by
  simp only [string_confirm_btn3_step]
  split_ifs <;> simp

@[simp] lemma standby_pwm_step_current (m : Machine) :
    (standby_pwm_step m).current = m.current := by
  simp only [standby_pwm_step]; split_ifs <;> rfl

@[simp] lemma standby_pwm_step_previous_state (m : Machine) :
    (standby_pwm_step m).previous_state = m.previous_state := by
  simp only [standby_pwm_step]; split_ifs <;> rfl

@[simp] lemma standby_button_step_previous_state (m : Machine) (i : TickInput) :
    (standby_button_step m i).previous_state = m.previous_state := by
  simp only [standby_button_step]
  split_ifs <;> simp

lemma standby_button_step_current (m : Machine) (i : TickInput) :
    (standby_button_step m i).current =
      if i.edge0 || i.edge1 || i.edge2 || i.edge3 then m.previous_state
      else m.current := by
  simp only [standby_button_step]
  split_ifs <;> simp

@[simp] lemma standby_button_step_no_edge (m : Machine) (i : TickInput)
    (h0 : i.edge0 = false) (h1 : i.edge1 = false) (h2 : i.edge2 = false)
    (h3 : i.edge3 = false) : standby_button_step m i = m := by
  simp [standby_button_step, h0, h1, h2, h3]

lemma standby_pwm_step_pwm_le (m : Machine) (h : m.pwm_duty ≤ 100) :
    (standby_pwm_step m).pwm_duty ≤ 100 := by
  simp only [standby_pwm_step]
  split_ifs <;> simp <;> omega

lemma standby_button_step_pwm_le (m : Machine) (i : TickInput)
    (h : m.pwm_duty ≤ 100) : (standby_button_step m i).pwm_duty ≤ 100 := by
  simp only [standby_button_step]
  split_ifs with he
  · cases hp : m.previous_state <;>
      simp [smf_set_state, state_entry, char_entry_state_entry,
        string_build_state_entry, string_confirm_state_entry, standby_state_entry] <;>
      omega
  · exact h

lemma check_standby_current_of_not_held0 (m : Machine) (i : TickInput)
    (h : i.held0 = false) :
    (check_standby_transition m i).current = m.current := by
  simp only [check_standby_transition, h]
  split_ifs <;> simp_all

/-- The CharEntry commit block, case split on the source's three guards. -/
lemma char_entry_btn3_step_spec (m : Machine) (i : TickInput) (he : i.edge3 = true) :
    (m.bit_count ≠ 8 → char_entry_btn3_step m i = m) ∧
    (m.bit_count = 8 → m.string_length < 63 →
      char_entry_btn3_step m i =
        smf_set_state
          { m with
              string_buffer := (m.string_buffer.set m.string_length m.current_char).set
                (m.string_length + 1) 0,
              string_length := m.string_length + 1 }
          .stringBuild) ∧
    (m.bit_count = 8 → ¬ m.string_length < 63 → char_entry_btn3_step m i = m) := by
  refine ⟨?_, ?_, ?_⟩ <;> intros <;>
    simp_all [char_entry_btn3_step, MAX_STRING_LENGTH]

/-- The StringBuild BTN0 auto-commit rollover. -/
lemma string_build_btn0_step_rollover (m : Machine) (i : TickInput)
    (he : i.edge0 = true) (hbc : m.bit_count = 8) (hlen : m.string_length < 63) :
    string_build_btn0_step m i =
      { m with
          string_buffer := (m.string_buffer.set m.string_length m.current_char).set
            (m.string_length + 1) 0,
          string_length := m.string_length + 1,
          current_char := 0, bit_count := 1, led0_blink_timer := 1 } := by
  simp [string_build_btn0_step, he, hbc, hlen, MAX_STRING_LENGTH]

/-- The StringBuild BTN1 auto-commit rollover. -/
lemma string_build_btn1_step_rollover (m : Machine) (i : TickInput)
    (he : i.edge1 = true) (hbc : m.bit_count = 8) (hlen : m.string_length < 63) :
    string_build_btn1_step m i =
      { m with
          string_buffer := (m.string_buffer.set m.string_length m.current_char).set
            (m.string_length + 1) 0,
          string_length := m.string_length + 1,
          current_char := 1, bit_count := 1, led1_blink_timer := 1 } := by
  simp [string_build_btn1_step, he, hbc, hlen, MAX_STRING_LENGTH]

/-- The StringBuild delete block with the edge present. -/
lemma string_build_btn2_step_delete (m : Machine) (i : TickInput)
    (he : i.edge2 = true) :
    string_build_btn2_step m i =
      smf_set_state
        { m with string_buffer := List.replicate MAX_STRING_LENGTH 0, string_length := 0 }
        .charEntry := by
  simp [string_build_btn2_step, he]

/-- The StringBuild finalize block when no completed character is pending. -/
lemma string_build_btn3_step_finalize_no_append (m : Machine) (i : TickInput)
    (he : i.edge3 = true) (hbc : m.bit_count ≠ 8) :
    string_build_btn3_step m i = smf_set_state m .stringConfirm := by
  simp [string_build_btn3_step, he, hbc]

/-- The StringConfirm delete block with the edge present. -/
lemma string_confirm_btn2_step_delete (m : Machine) (i : TickInput)
    (he : i.edge2 = true) :
    string_confirm_btn2_step m i =
      smf_set_state
        { m with string_buffer := List.replicate MAX_STRING_LENGTH 0, string_length := 0 }
        .charEntry := by
  simp [string_confirm_btn2_step, he]

/-- The StringConfirm send block with the edge present. -/
lemma string_confirm_btn3_step_send (m : Machine) (i : TickInput)
    (he : i.edge3 = true) :
    string_confirm_btn3_step m i =
      smf_set_state
        { m with string_buffer := List.replicate MAX_STRING_LENGTH 0, string_length := 0 }
        .charEntry := by
  simp [string_confirm_btn3_step, he]

@[simp] lemma smf_set_state_char_entry_bit_count (m : Machine) :
    (smf_set_state m .charEntry).bit_count = 0 := rfl

@[simp] lemma smf_set_state_char_entry_current_char (m : Machine) :
    (smf_set_state m .charEntry).current_char = 0 := rfl

@[simp] lemma smf_set_state_string_build_bit_count (m : Machine) :
    (smf_set_state m .stringBuild).bit_count = 0 := rfl

@[simp] lemma smf_set_state_string_build_current_char (m : Machine) :
    (smf_set_state m .stringBuild).current_char = 0 := rfl

@[simp] lemma smf_set_state_string_confirm_bit_count (m : Machine) :
    (smf_set_state m .stringConfirm).bit_count = m.bit_count := rfl

@[simp] lemma smf_set_state_string_confirm_current_char (m : Machine) :
    (smf_set_state m .stringConfirm).current_char = m.current_char := rfl

@[simp] lemma standby_pwm_step_string_buffer (m : Machine) :
    (standby_pwm_step m).string_buffer = m.string_buffer := by
  simp only [standby_pwm_step]; split_ifs <;> rfl

@[simp] lemma standby_pwm_step_current_char (m : Machine) :
    (standby_pwm_step m).current_char = m.current_char := by
  simp only [standby_pwm_step]; split_ifs <;> rfl

@[simp] lemma standby_pwm_step_bit_count (m : Machine) :
    (standby_pwm_step m).bit_count = m.bit_count := by
  simp only [standby_pwm_step]; split_ifs <;> rfl

/-- A concrete all-zero context sitting in STRING_BUILD_STATE, used to
instantiate hypotheses of general theorems at explicit inputs. -/
def sampleBuild : Machine := { state_machine_init with current := .stringBuild }

/-- A concrete context sitting in STANDBY_STATE with a saved CharEntry
state. -/
def sampleStandby : Machine :=
  { state_machine_init with current := .standby, previous_state := .charEntry }

lemma lor_two_pow_of_lt : ∀ (k a : Nat), a < 2 ^ k → a ||| 2 ^ k = a + 2 ^ k := by
  intro k
  induction k with
  | zero =>
    intro a h
    interval_cases a
    decide
  | succ k ih =>
    intro a h
    rw [← Nat.bit_decomp a]
    have h2 : (2 : Nat) ^ (k + 1) = Nat.bit false (2 ^ k) := by
      simp [Nat.bit_val, Nat.pow_succ, Nat.mul_comm]
    rw [h2, Nat.lor_bit]
    have hq : Nat.div2 a < 2 ^ k := by
      have := Nat.bit_decomp a
      rw [← this] at h
      exact Nat.bit_lt_two_pow_succ_iff.mp h
    rw [ih _ hq]
    simp [Nat.bit_val]
    ring



lemma char_entry_btn0_step_add (m : Machine) (i : TickInput)
    (he : i.edge0 = true) (hbc : m.bit_count < 8) :
    char_entry_btn0_step m i =
      { m with bit_count := m.bit_count + 1, led0_blink_timer := 1 } := by
  simp [char_entry_btn0_step, he, hbc]

lemma char_entry_btn1_step_add (m : Machine) (i : TickInput)
    (he : i.edge1 = true) (hbc : m.bit_count < 8) :
    char_entry_btn1_step m i =
      { m with current_char := (m.current_char ||| (1 <<< m.bit_count)) % 256,
               bit_count := m.bit_count + 1, led1_blink_timer := 1 } := by
  simp [char_entry_btn1_step, he, hbc]

lemma char_entry_bit_step (m : Machine) (b : Bool)
    (hc : m.current = .charEntry) (hbc : m.bit_count < 8) :
    (state_machine_run m (bitInput 0 b)).current = .charEntry ∧
    (state_machine_run m (bitInput 0 b)).bit_count = m.bit_count + 1 ∧
    (state_machine_run m (bitInput 0 b)).current_char =
      (if b then (m.current_char ||| (1 <<< m.bit_count)) % 256
       else m.current_char) := by
  have hcs := check_standby_current_of_not_held0 m (bitInput 0 b) rfl
  simp only [state_machine_run, hc, char_entry_state_run, hcs]
  rw [if_neg (by simp [hcs, hc])]
  cases b
  · simp only [char_entry_btn3_step_no_edge _ (bitInput 0 false) rfl,
      char_entry_btn2_step_no_edge _ (bitInput 0 false) rfl,
      char_entry_btn1_step_no_edge _ (bitInput 0 false) rfl]
    rw [char_entry_btn0_step_add _ (bitInput 0 false) rfl (by simpa using hbc)]
    simp [hcs, hc]
  · simp only [char_entry_btn3_step_no_edge _ (bitInput 0 true) rfl,
      char_entry_btn2_step_no_edge _ (bitInput 0 true) rfl,
      char_entry_btn0_step_no_edge _ (bitInput 0 true) rfl]
    rw [char_entry_btn1_step_add _ (bitInput 0 true) rfl (by simpa using hbc)]
    simp [hcs, hc]

lemma feedBits_spec : ∀ (bs : List Bool) (m : Machine), m.current = .charEntry →
    m.current_char < 2 ^ m.bit_count → m.bit_count + bs.length ≤ 8 →
    (feedBits m bs).current = .charEntry ∧
    (feedBits m bs).bit_count = m.bit_count + bs.length ∧
    (feedBits m bs).current_char = m.current_char + 2 ^ m.bit_count * bitsVal bs := by
  intro bs
  induction bs with
  | nil =>
    intro m hc hinv hlen
    simp [feedBits, bitsVal, hc]
  | cons b bs ih =>
    intro m hc hinv hlen
    have hbc : m.bit_count < 8 := by
      simp only [List.length_cons] at hlen; omega
    obtain ⟨s1, s2, s3⟩ := char_entry_bit_step m b hc hbc
    have hstep : feedBits m (b :: bs) = feedBits (state_machine_run m (bitInput 0 b)) bs := rfl
    have hshift : (1 <<< m.bit_count) = 2 ^ m.bit_count := Nat.one_shiftLeft _
    have hpow : 2 ^ (m.bit_count + 1) ≤ 256 := by
      calc 2 ^ (m.bit_count + 1) ≤ 2 ^ 8 := Nat.pow_le_pow_right (by omega) (by omega)
      _ = 256 := by norm_num
    have hlt : m.current_char + 2 ^ m.bit_count < 2 ^ (m.bit_count + 1) := by
      rw [Nat.pow_succ]; omega
    have hchar : (state_machine_run m (bitInput 0 b)).current_char =
        (if b then m.current_char + 2 ^ m.bit_count else m.current_char) := by
      rw [s3]
      cases b
      · simp
      · simp only [if_true]
        rw [hshift, lor_two_pow_of_lt _ _ hinv, Nat.mod_eq_of_lt (by omega)]
    have hMinv : (state_machine_run m (bitInput 0 b)).current_char <
        2 ^ (state_machine_run m (bitInput 0 b)).bit_count := by
      rw [hchar, s2]
      cases b
      · simp only [if_neg Bool.false_ne_true]
        calc m.current_char < 2 ^ m.bit_count := hinv
        _ ≤ 2 ^ (m.bit_count + 1) := Nat.pow_le_pow_right (by omega) (by omega)
      · simpa using hlt
    have hMlen : (state_machine_run m (bitInput 0 b)).bit_count + bs.length ≤ 8 := by
      rw [s2]
      simp only [List.length_cons] at hlen
      omega
    have h := ih (state_machine_run m (bitInput 0 b)) s1 hMinv hMlen
    rw [hstep]
    refine ⟨h.1, ?_, ?_⟩
    · rw [h.2.1, s2]
      simp only [List.length_cons]
      omega
    · rw [h.2.2, hchar, s2]
      cases b
      · simp only [if_neg Bool.false_ne_true, bitsVal]
        rw [Nat.pow_succ]
        ring
      · simp only [if_true, bitsVal]
        rw [Nat.pow_succ]
        ring



lemma u32_sub_eq (a b : Nat) (hb : b ≤ a) (ha : a < U32) : u32_sub a b = a - b := by
  simp only [u32_sub, U32] at *
  omega

lemma streak_le (f : Nat → Bool) : ∀ k, streak f k ≤ k + 1 := by
  intro k
  induction k with
  | zero => simp only [streak]; split_ifs <;> omega
  | succ k ih => simp only [streak]; split_ifs <;> omega

lemma streak_succ_prev (f : Nat → Bool) (n : Nat) :
    streak f n = if f n then prevStreak f n + 1 else 0 := by
  cases n <;> simp [streak, prevStreak]

lemma prevStreak_le (f : Nat → Bool) : ∀ n, prevStreak f n ≤ n := by
  intro n
  cases n with
  | zero => simp [prevStreak]
  | succ k => simpa [prevStreak] using streak_le f k

lemma prevStreak_eq_zero (f : Nat → Bool) (n : Nat) (hp : prevHeld f n = false) :
    prevStreak f n = 0 := by
  cases n with
  | zero => simp [prevStreak]
  | succ k =>
    simp only [prevHeld] at hp
    simp [prevStreak, streak_succ_prev, hp]

lemma streak_pos_of_big (f : Nat → Bool) (n : Nat) (h : 3001 ≤ streak f n) :
    f n = true := by
  by_contra hf
  rw [streak_succ_prev] at h
  simp only [Bool.not_eq_true] at hf
  rw [hf] at h
  simp at h

lemma run_no_edge_detector_fields (m : Machine) (i : TickInput)
    (hc : m.current ≠ .standby) (e0 : i.edge0 = false) (e1 : i.edge1 = false)
    (e2 : i.edge2 = false) (e3 : i.edge3 = false) :
    (state_machine_run m i).current = (check_standby_transition m i).current ∧
    (state_machine_run m i).btn0_held = (check_standby_transition m i).btn0_held ∧
    (state_machine_run m i).btn1_held = (check_standby_transition m i).btn1_held ∧
    (state_machine_run m i).btn0_hold_start =
      (check_standby_transition m i).btn0_hold_start ∧
    (state_machine_run m i).btn1_hold_start =
      (check_standby_transition m i).btn1_hold_start := by
  cases hcur : m.current
  · simp only [state_machine_run, hcur, char_entry_state_run]
    split_ifs with hst
    · exact ⟨rfl, rfl, rfl, rfl, rfl⟩
    · simp only [char_entry_btn3_step_no_edge _ _ e3, char_entry_btn2_step_no_edge _ _ e2,
        char_entry_btn1_step_no_edge _ _ e1, char_entry_btn0_step_no_edge _ _ e0]
      simp
  · simp only [state_machine_run, hcur, string_build_state_run]
    split_ifs with hst
    · exact ⟨rfl, rfl, rfl, rfl, rfl⟩
    · simp only [string_build_btn3_step_no_edge _ _ e3, string_build_btn2_step_no_edge _ _ e2,
        string_build_btn1_step_no_edge _ _ e1, string_build_btn0_step_no_edge _ _ e0]
      simp
  · simp only [state_machine_run, hcur, string_confirm_state_run]
    split_ifs with hst
    · exact ⟨rfl, rfl, rfl, rfl, rfl⟩
    · simp only [string_confirm_btn3_step_no_edge _ _ e3,
        string_confirm_btn2_step_no_edge _ _ e2]
      simp
  · exact absurd hcur hc



lemma u32_sub_sub (t0 n p : Nat) (hp : p ≤ n) (hU : t0 + n < U32) :
    u32_sub (t0 + n) (t0 + n - p) = p := by
  simp only [u32_sub, U32] at *
  omega

lemma u32_sub_self (a : Nat) (hU : a < U32) : u32_sub a a = 0 := by
  simp only [u32_sub, U32] at *
  omega

lemma check_standby_step_spec (M : Machine) (t0 n : Nat) (f0 f1 : Nat → Bool)
    (hb0 : M.btn0_held = prevHeld f0 n) (hb1 : M.btn1_held = prevHeld f1 n)
    (hs0 : prevHeld f0 n = true → M.btn0_hold_start = t0 + n - prevStreak f0 n)
    (hs1 : prevHeld f1 n = true → M.btn1_hold_start = t0 + n - prevStreak f1 n)
    (hU : t0 + n < U32) :
    (3001 ≤ streak f0 n ∧ 3001 ≤ streak f1 n →
      (check_standby_transition M (holdInput t0 f0 f1 n)).current = .standby) ∧
    (¬(3001 ≤ streak f0 n ∧ 3001 ≤ streak f1 n) →
      (check_standby_transition M (holdInput t0 f0 f1 n)).current = M.current ∧
      (check_standby_transition M (holdInput t0 f0 f1 n)).btn0_held = f0 n ∧
      (check_standby_transition M (holdInput t0 f0 f1 n)).btn1_held = f1 n ∧
      (f0 n = true → (check_standby_transition M (holdInput t0 f0 f1 n)).btn0_hold_start
          = t0 + (n + 1) - streak f0 n) ∧
      (f1 n = true → (check_standby_transition M (holdInput t0 f0 f1 n)).btn1_hold_start
          = t0 + (n + 1) - streak f1 n)) := by
  have hstk0 := streak_succ_prev f0 n
  have hstk1 := streak_succ_prev f1 n
  have hps0 := prevStreak_le f0 n
  have hps1 := prevStreak_le f1 n
  cases hf0 : f0 n <;> cases hf1 : f1 n
  · -- both released this tick: streaks are 0, flags get cleared, no fire
    have hz0 : streak f0 n = 0 := by rw [hstk0, hf0]; simp
    have hz1 : streak f1 n = 0 := by rw [hstk1, hf1]; simp
    refine ⟨fun hfire => by omega, fun _ => ?_⟩
    simp [check_standby_transition, holdInput, hf0, hf1]
  · -- only button 1 held: no fire
    have hz0 : streak f0 n = 0 := by rw [hstk0, hf0]; simp
    refine ⟨fun hfire => by omega, fun _ => ?_⟩
    have h1 : streak f1 n = prevStreak f1 n + 1 := by rw [hstk1, hf1]; simp
    cases hp1 : prevHeld f1 n
    · have hq1 : prevStreak f1 n = 0 := prevStreak_eq_zero f1 n hp1
      simp [check_standby_transition, holdInput, hf0, hf1, hb1, hp1, h1, hq1]
    · simp [check_standby_transition, holdInput, hf0, hf1, hb1, hp1, h1,
        hs1 hp1]
      omega
  · -- only button 0 held: no fire
    have hz1 : streak f1 n = 0 := by rw [hstk1, hf1]; simp
    refine ⟨fun hfire => by omega, fun _ => ?_⟩
    have h0 : streak f0 n = prevStreak f0 n + 1 := by rw [hstk0, hf0]; simp
    cases hp0 : prevHeld f0 n
    · have hq0 : prevStreak f0 n = 0 := prevStreak_eq_zero f0 n hp0
      simp [check_standby_transition, holdInput, hf0, hf1, hb0, hp0, h0, hq0]
    · simp [check_standby_transition, holdInput, hf0, hf1, hb0, hp0, h0,
        hs0 hp0]
      omega
  · -- both held: durations decide
    have h0 : streak f0 n = prevStreak f0 n + 1 := by rw [hstk0, hf0]; simp
    have h1 : streak f1 n = prevStreak f1 n + 1 := by rw [hstk1, hf1]; simp
    cases hp0 : prevHeld f0 n <;> cases hp1 : prevHeld f1 n
    · -- both holds fresh: durations 0, no fire
      have hq0 : prevStreak f0 n = 0 := prevStreak_eq_zero f0 n hp0
      have hq1 : prevStreak f1 n = 0 := prevStreak_eq_zero f1 n hp1
      refine ⟨fun hfire => by omega, fun _ => ?_⟩
      simp [check_standby_transition, holdInput, hf0, hf1, hb0, hb1, hp0, hp1,
        u32_sub_self _ hU, STANDBY_HOLD_TIME_MS, h0, h1, hq0, hq1]
    · -- button 0 fresh: its duration 0, no fire
      have hq0 : prevStreak f0 n = 0 := prevStreak_eq_zero f0 n hp0
      refine ⟨fun hfire => by omega, fun _ => ?_⟩
      simp [check_standby_transition, holdInput, hf0, hf1, hb0, hb1, hp0, hp1,
        u32_sub_self _ hU, STANDBY_HOLD_TIME_MS, h0, h1, hq0, hs1 hp1]
      omega
    · -- button 1 fresh
      have hq1 : prevStreak f1 n = 0 := prevStreak_eq_zero f1 n hp1
      refine ⟨fun hfire => by omega, fun _ => ?_⟩
      simp [check_standby_transition, holdInput, hf0, hf1, hb0, hb1, hp0, hp1,
        u32_sub_self _ hU, STANDBY_HOLD_TIME_MS, h0, h1, hq1, hs0 hp0]
      omega
    · -- both continuing: durations are the previous streaks
      constructor
      · rintro ⟨ha0, ha1⟩
        have hd : 3000 ≤ prevStreak f0 n ∧ 3000 ≤ prevStreak f1 n := by omega
        simp [check_standby_transition, holdInput, hf0, hf1, hb0, hb1, hp0, hp1,
          hs0 hp0, hs1 hp1, u32_sub_sub t0 n _ hps0 hU, u32_sub_sub t0 n _ hps1 hU,
          STANDBY_HOLD_TIME_MS, if_pos hd, smf_set_state, state_entry,
          standby_state_entry]
      · intro hfire
        have hd : ¬(3000 ≤ prevStreak f0 n ∧ 3000 ≤ prevStreak f1 n) := by omega
        simp [check_standby_transition, holdInput, hf0, hf1, hb0, hb1, hp0, hp1,
          hs0 hp0, hs1 hp1, u32_sub_sub t0 n _ hps0 hU, u32_sub_sub t0 n _ hps1 hU,
          STANDBY_HOLD_TIME_MS, if_neg hd, h0, h1]
        omega



lemma run_standby_no_edge (m : Machine) (i : TickInput) (hc : m.current = .standby)
    (e0 : i.edge0 = false) (e1 : i.edge1 = false) (e2 : i.edge2 = false)
    (e3 : i.edge3 = false) : (state_machine_run m i).current = .standby := by
  simp only [state_machine_run, hc, standby_state_run,
    standby_button_step_no_edge _ _ e0 e1 e2 e3, standby_pwm_step_current]

lemma feedHolds_inv (m : Machine) (t0 : Nat) (f0 f1 : Nat → Bool)
    (hc : m.current ≠ .standby) (h0 : m.btn0_held = false) (h1 : m.btn1_held = false) :
    ∀ n, t0 + n ≤ U32 →
    (∀ k, k < n → ¬(3001 ≤ streak f0 k ∧ 3001 ≤ streak f1 k)) →
    (feedHolds m t0 f0 f1 n).current = m.current ∧
    (feedHolds m t0 f0 f1 n).btn0_held = prevHeld f0 n ∧
    (feedHolds m t0 f0 f1 n).btn1_held = prevHeld f1 n ∧
    (prevHeld f0 n = true →
      (feedHolds m t0 f0 f1 n).btn0_hold_start = t0 + n - prevStreak f0 n) ∧
    (prevHeld f1 n = true →
      (feedHolds m t0 f0 f1 n).btn1_hold_start = t0 + n - prevStreak f1 n) := by
  intro n
  induction n with
  | zero =>
    intro hU hnf
    refine ⟨rfl, by simpa [feedHolds, prevHeld] using h0,
      by simpa [feedHolds, prevHeld] using h1, ?_, ?_⟩ <;>
      simp [prevHeld]
  | succ n ih =>
    intro hU hnf
    obtain ⟨ic, ib0, ib1, is0, is1⟩ :=
      ih (by omega) (fun k hk => hnf k (by omega))
    have hMc : (feedHolds m t0 f0 f1 n).current ≠ .standby := by
      rw [ic]; exact hc
    have spec := check_standby_step_spec (feedHolds m t0 f0 f1 n) t0 n f0 f1
      ib0 ib1 is0 is1 (by omega)
    obtain ⟨cc, cb0, cb1, cs0, cs1⟩ := spec.2 (hnf n (by omega))
    have frame := run_no_edge_detector_fields (feedHolds m t0 f0 f1 n)
      (holdInput t0 f0 f1 n) hMc rfl rfl rfl rfl
    have hstep : feedHolds m t0 f0 f1 (n + 1) =
        state_machine_run (feedHolds m t0 f0 f1 n) (holdInput t0 f0 f1 n) := rfl
    rw [hstep]
    refine ⟨?_, ?_, ?_, ?_, ?_⟩
    · rw [frame.1, cc, ic]
    · rw [frame.2.1, cb0]; rfl
    · rw [frame.2.2.1, cb1]; rfl
    · intro hp
      rw [frame.2.2.2.1, cs0 (by simpa [prevHeld] using hp)]
      rfl
    · intro hp
      rw [frame.2.2.2.2, cs1 (by simpa [prevHeld] using hp)]
      rfl

lemma feedHolds_fire (m : Machine) (t0 : Nat) (f0 f1 : Nat → Bool)
    (hc : m.current ≠ .standby) (h0 : m.btn0_held = false) (h1 : m.btn1_held = false)
    (n : Nat) (hU : t0 + n < U32)
    (hnf : ∀ k, k < n → ¬(3001 ≤ streak f0 k ∧ 3001 ≤ streak f1 k))
    (hfire : 3001 ≤ streak f0 n ∧ 3001 ≤ streak f1 n) :
    (feedHolds m t0 f0 f1 (n + 1)).current = .standby := by
  obtain ⟨ic, ib0, ib1, is0, is1⟩ := feedHolds_inv m t0 f0 f1 hc h0 h1 n (by omega) hnf
  have hMc : (feedHolds m t0 f0 f1 n).current ≠ .standby := by
    rw [ic]; exact hc
  have spec := check_standby_step_spec (feedHolds m t0 f0 f1 n) t0 n f0 f1
    ib0 ib1 is0 is1 hU
  have frame := run_no_edge_detector_fields (feedHolds m t0 f0 f1 n)
    (holdInput t0 f0 f1 n) hMc rfl rfl rfl rfl
  have hstep : feedHolds m t0 f0 f1 (n + 1) =
      state_machine_run (feedHolds m t0 f0 f1 n) (holdInput t0 f0 f1 n) := rfl
  rw [hstep, frame.1, spec.1 hfire]

lemma feedHolds_standby_stable (m : Machine) (t0 : Nat) (f0 f1 : Nat → Bool)
    (n : Nat) (h : (feedHolds m t0 f0 f1 n).current = .standby) :
    ∀ d, (feedHolds m t0 f0 f1 (n + d)).current = .standby := by
  intro d
  induction d with
  | zero => exact h
  | succ d ih =>
    have hstep : feedHolds m t0 f0 f1 (n + d + 1) =
        state_machine_run (feedHolds m t0 f0 f1 (n + d)) (holdInput t0 f0 f1 (n + d)) := rfl
    rw [show n + (d + 1) = n + d + 1 by omega, hstep]
    exact run_standby_no_edge _ _ ih rfl rfl rfl rfl

lemma streak_const_true : ∀ k, streak (fun _ => true) k = k + 1 := by
  intro k
  induction k with
  | zero => simp [streak]
  | succ k ih => simp [streak, ih]

/-! ## Claims -/

/-- C8: the invariant `string_length ≤ 63` (capacity `MAX_STRING_LENGTH - 1`)
holds after `state_machine_init` and is preserved by every
`state_machine_run` tick: each append site first checks
`string_length < MAX_STRING_LENGTH - 1` and otherwise drops the character,
so the committed length can never exceed 63. -/
theorem C8_length_invariant :
    state_machine_init.string_length ≤ 63 ∧
      ∀ (m : Machine) (i : TickInput), m.string_length ≤ 63 →
        (state_machine_run m i).string_length ≤ 63 := by
  constructor
  · decide
  · intro m i h
    cases hc : m.current
    · simp only [state_machine_run, hc, char_entry_state_run]
      split_ifs with hst
      · simpa using h
      · apply char_entry_btn3_step_length_le
        simpa using h
    · simp only [state_machine_run, hc, string_build_state_run]
      split_ifs with hst
      · simpa using h
      · apply string_build_btn3_step_length_le
        apply string_build_btn2_step_length_le
        apply string_build_btn1_step_length_le
        apply string_build_btn0_step_length_le
        simpa using h
    · simp only [state_machine_run, hc, string_confirm_state_run]
      split_ifs with hst
      · simpa using h
      · apply string_confirm_btn3_step_length_le
        apply string_confirm_btn2_step_length_le
        simpa using h
    · simp only [state_machine_run, hc, standby_state_run,
        standby_button_step_string_length, standby_pwm_step_string_length]
      exact h

/-- Witness for C8 at a concrete input: a full buffer (63 characters) in
StringBuild receiving a rollover bit edge stays at length 63. -/
theorem C8_length_invariant_witness :
    ({ sampleBuild with string_length := 63, bit_count := 8 } : Machine).string_length ≤ 63 ∧
      (state_machine_run { sampleBuild with string_length := 63, bit_count := 8 }
        { t := 0, held0 := false, held1 := false, edge0 := false, edge1 := true,
          edge2 := false, edge3 := false }).string_length ≤ 63 :=
  ⟨by decide,
    C8_length_invariant.2 { sampleBuild with string_length := 63, bit_count := 8 }
      { t := 0, held0 := false, held1 := false, edge0 := false, edge1 := true,
        edge2 := false, edge3 := false } (by decide)⟩

/-- C9: after Standby entry `pwm_duty = 0` with direction increasing; every
Standby run tick keeps `pwm_duty` within `[0, 100]`; with no exit edge the
ramp moves by 2 toward the current direction's bound and the direction
flips exactly at the bounds (increasing flips to decreasing exactly when
the duty reaches 100; decreasing flips to increasing exactly at duty 0,
i.e. when the pre-tick duty is below 2). -/
theorem C9_pwm_ramp :
    (∀ m : Machine, (smf_set_state m .standby).pwm_duty = 0 ∧
      (smf_set_state m .standby).pwm_increasing = true) ∧
    (∀ (m : Machine) (i : TickInput), m.current = .standby → m.pwm_duty ≤ 100 →
      (state_machine_run m i).pwm_duty ≤ 100) ∧
    (∀ (m : Machine) (i : TickInput), m.current = .standby →
      i.edge0 = false → i.edge1 = false → i.edge2 = false → i.edge3 = false →
      m.pwm_duty ≤ 100 →
      (m.pwm_increasing = true →
        (state_machine_run m i).pwm_duty = min (m.pwm_duty + 2) 100 ∧
        ((state_machine_run m i).pwm_increasing = false ↔ 100 ≤ m.pwm_duty + 2)) ∧
      (m.pwm_increasing = false →
        (state_machine_run m i).pwm_duty = m.pwm_duty - 2 ∧
        ((state_machine_run m i).pwm_increasing = true ↔ m.pwm_duty ≤ 1))) := by
  refine ⟨fun m => ⟨rfl, rfl⟩, ?_, ?_⟩
  · intro m i hc h
    simp only [state_machine_run, hc, standby_state_run]
    exact standby_button_step_pwm_le _ _ (standby_pwm_step_pwm_le _ h)
  · intro m i hc h0 h1 h2 h3 h
    have hm : (m.pwm_duty + 2) % 256 = m.pwm_duty + 2 := Nat.mod_eq_of_lt (by omega)
    simp only [state_machine_run, hc, standby_state_run,
      standby_button_step_no_edge _ _ h0 h1 h2 h3, standby_pwm_step, hm]
    split_ifs <;> constructor <;> intro hinc <;> simp_all <;> omega

/-- Witness for C9 at a concrete input: one no-edge Standby tick from
duty 100 in decreasing mode yields duty 98 with no flip. -/
theorem C9_pwm_ramp_witness :
    ({ sampleStandby with pwm_duty := 100 } : Machine).pwm_duty ≤ 100 ∧
      (state_machine_run { sampleStandby with pwm_duty := 100 }
          { t := 0, held0 := false, held1 := false, edge0 := false, edge1 := false,
            edge2 := false, edge3 := false }).pwm_duty = 100 - 2 :=
  ⟨by decide,
    (((C9_pwm_ramp.2.2 { sampleStandby with pwm_duty := 100 }
      { t := 0, held0 := false, held1 := false, edge0 := false, edge1 := false,
        edge2 := false, edge3 := false } (by decide) rfl rfl rfl rfl
      (by decide)).2 (by decide)).1)⟩

/-- C10: whenever the machine is in Standby, the saved `previous_state` is
never Standby itself; the property holds initially and is preserved by
every tick (the detector records the dispatching non-standby state just
before switching to Standby), and therefore a button press in Standby
always resumes a non-Standby state. -/
theorem C10_previous_state_invariant :
    PrevInv state_machine_init ∧
    (∀ (m : Machine) (i : TickInput), PrevInv m → PrevInv (state_machine_run m i)) ∧
    (∀ (m : Machine) (i : TickInput), PrevInv m → m.current = .standby →
      (i.edge0 || i.edge1 || i.edge2 || i.edge3) = true →
      (state_machine_run m i).current ≠ .standby) := by
  refine ⟨fun h => by simpa [state_machine_init, char_entry_state_entry] using h, ?_, ?_⟩
  · intro m i h
    cases hc : m.current
    · simp only [state_machine_run, hc, char_entry_state_run]
      split_ifs with hst
      · intro hcur
        rcases check_standby_current_cases m i with h1 | ⟨h1, h2⟩
        · rw [h1, hc] at hcur; simp at hcur
        · rw [h2, hc]; simp
      · intro hcur
        rcases char_entry_btn3_step_current_cases
          (char_entry_btn2_step (char_entry_btn1_step (char_entry_btn0_step
            (led1_indicator_step (led0_indicator_step (led3_blink_step 500
              (check_standby_transition m i)))) i) i) i) i with h1 | h1
        · rw [h1] at hcur
          simp only [char_entry_btn2_step_current, char_entry_btn1_step_current,
            char_entry_btn0_step_current, led1_indicator_step_current,
            led0_indicator_step_current, led3_blink_step_current] at hcur
          exact absurd hcur hst
        · rw [h1] at hcur; simp at hcur
    · simp only [state_machine_run, hc, string_build_state_run]
      split_ifs with hst
      · intro hcur
        rcases check_standby_current_cases m i with h1 | ⟨h1, h2⟩
        · rw [h1, hc] at hcur; simp at hcur
        · rw [h2, hc]; simp
      · intro hcur
        rcases string_build_btn3_step_current_cases
          (string_build_btn2_step (string_build_btn1_step (string_build_btn0_step
            (led1_indicator_step (led0_indicator_step (led3_blink_step 125
              (check_standby_transition m i)))) i) i) i) i with h1 | h1
        · rw [h1] at hcur
          rcases string_build_btn2_step_current_cases
            (string_build_btn1_step (string_build_btn0_step
              (led1_indicator_step (led0_indicator_step (led3_blink_step 125
                (check_standby_transition m i)))) i) i) i with h2 | h2
          · rw [h2] at hcur
            simp only [string_build_btn1_step_current, string_build_btn0_step_current,
              led1_indicator_step_current, led0_indicator_step_current,
              led3_blink_step_current] at hcur
            exact absurd hcur hst
          · rw [h2] at hcur; simp at hcur
        · rw [h1] at hcur; simp at hcur
    · simp only [state_machine_run, hc, string_confirm_state_run]
      split_ifs with hst
      · intro hcur
        rcases check_standby_current_cases m i with h1 | ⟨h1, h2⟩
        · rw [h1, hc] at hcur; simp at hcur
        · rw [h2, hc]; simp
      · intro hcur
        rcases string_confirm_btn3_step_current_cases
          (string_confirm_btn2_step (led3_blink_step 31
            (check_standby_transition m i)) i) i with h1 | h1
        · rw [h1] at hcur
          rcases string_confirm_btn2_step_current_cases
            (led3_blink_step 31 (check_standby_transition m i)) i with h2 | h2
          · rw [h2] at hcur
            simp only [led3_blink_step_current] at hcur
            exact absurd hcur hst
          · rw [h2] at hcur; simp at hcur
        · rw [h1] at hcur; simp at hcur
    · simp only [state_machine_run, hc, standby_state_run]
      intro hcur
      rw [standby_button_step_current] at hcur
      simp only [standby_pwm_step_previous_state, standby_pwm_step_current] at hcur
      by_cases he : (i.edge0 || i.edge1 || i.edge2 || i.edge3) = true
      · rw [if_pos he] at hcur
        exact absurd hcur (h hc)
      · simp only [standby_button_step_previous_state, standby_pwm_step_previous_state]
        exact h hc
  · intro m i h hc he
    simp only [state_machine_run, hc, standby_state_run]
    rw [standby_button_step_current]
    simp only [standby_pwm_step_previous_state, standby_pwm_step_current, he, if_true]
    exact h hc

/-- Witness for C10 at a concrete input: a press edge in a concrete Standby
context resumes the saved CharEntry state, not Standby. -/
theorem C10_previous_state_invariant_witness :
    PrevInv sampleStandby ∧
      (state_machine_run sampleStandby
        { t := 0, held0 := false, held1 := false, edge0 := true, edge1 := false,
          edge2 := false, edge3 := false }).current ≠ .standby :=
  ⟨fun _ => by decide,
    C10_previous_state_invariant.2.2 sampleStandby
      { t := 0, held0 := false, held1 := false, edge0 := true, edge1 := false,
        edge2 := false, edge3 := false } (fun _ => by decide) rfl rfl⟩

/-- C5: in CharEntry, a commit (BTN3) edge with `bit_count ≠ 8` leaves the
whole session state (buffer, length, accumulator, bit count) and the state
unchanged; with `bit_count = 8` and room in the buffer it appends
`current_char` (plus the terminator), increments `string_length` by exactly
one, transitions to StringBuild, and the StringBuild entry action then
resets `bit_count` to 0. -/
theorem C5_commit_guard (m : Machine) (i : TickInput)
    (hc : m.current = .charEntry) (hh : i.held0 = false)
    (e0 : i.edge0 = false) (e1 : i.edge1 = false) (e2 : i.edge2 = false)
    (e3 : i.edge3 = true) :
    (m.bit_count ≠ 8 →
      (state_machine_run m i).current = .charEntry ∧
      (state_machine_run m i).string_buffer = m.string_buffer ∧
      (state_machine_run m i).string_length = m.string_length ∧
      (state_machine_run m i).current_char = m.current_char ∧
      (state_machine_run m i).bit_count = m.bit_count) ∧
    (m.bit_count = 8 → m.string_length < 63 →
      (state_machine_run m i).current = .stringBuild ∧
      (state_machine_run m i).string_length = m.string_length + 1 ∧
      (state_machine_run m i).string_buffer =
        (m.string_buffer.set m.string_length m.current_char).set (m.string_length + 1) 0 ∧
      (state_machine_run m i).bit_count = 0) := by
  have hcs := check_standby_current_of_not_held0 m i hh
  simp only [state_machine_run, hc, char_entry_state_run, hcs]
  rw [if_neg (by simp [hcs, hc])]
  simp only [char_entry_btn2_step_no_edge _ _ e2, char_entry_btn1_step_no_edge _ _ e1,
    char_entry_btn0_step_no_edge _ _ e0]
  constructor
  · intro hbc
    rw [(char_entry_btn3_step_spec _ i e3).1 (by simpa using hbc)]
    simp [hcs, hc]
  · intro hbc hlen
    rw [(char_entry_btn3_step_spec _ i e3).2.1 (by simpa using hbc) (by simpa using hlen)]
    simp

/-- Witness for C5 at a concrete input: from a CharEntry context with 8
accumulated bits and length 0, a commit edge appends and moves to
StringBuild with `bit_count = 0`. -/
theorem C5_commit_guard_witness :
    (state_machine_run { state_machine_init with bit_count := 8, current_char := 85 }
        { t := 0, held0 := false, held1 := false, edge0 := false, edge1 := false,
          edge2 := false, edge3 := true }).current = .stringBuild ∧
      (state_machine_run { state_machine_init with bit_count := 8, current_char := 85 }
        { t := 0, held0 := false, held1 := false, edge0 := false, edge1 := false,
          edge2 := false, edge3 := true }).string_length = 0 + 1 :=
  ⟨((C5_commit_guard { state_machine_init with bit_count := 8, current_char := 85 }
      { t := 0, held0 := false, held1 := false, edge0 := false, edge1 := false,
        edge2 := false, edge3 := true } rfl rfl rfl rfl rfl rfl).2 rfl (by decide)).1,
    ((C5_commit_guard { state_machine_init with bit_count := 8, current_char := 85 }
      { t := 0, held0 := false, held1 := false, edge0 := false, edge1 := false,
        edge2 := false, edge3 := true } rfl rfl rfl rfl rfl rfl).2 rfl (by decide)).2.1⟩

/-- A concrete StringBuild context whose buffer is at capacity (63
committed characters) with a completed 8-bit character pending. -/
def sampleFullBuild : Machine :=
  { sampleBuild with string_length := 63, bit_count := 8, current_char := 65 }

/-- C3 counterexample: the claim asserts that EVERY bit edge arriving in
StringBuild with `bit_count = 8` appends (length + 1) and restarts the
accumulator (`bit_count = 1`); at capacity (`string_length = 63`) the code
skips the whole rollover instead, leaving length 63, `bit_count` 8 and the
accumulator untouched. -/
theorem C3_counterexample :
    (state_machine_run sampleFullBuild
        { t := 0, held0 := false, held1 := false, edge0 := false, edge1 := true,
          edge2 := false, edge3 := false }).string_length = 63 ∧
      (state_machine_run sampleFullBuild
        { t := 0, held0 := false, held1 := false, edge0 := false, edge1 := true,
          edge2 := false, edge3 := false }).string_length ≠
        sampleFullBuild.string_length + 1 ∧
      (state_machine_run sampleFullBuild
        { t := 0, held0 := false, held1 := false, edge0 := false, edge1 := true,
          edge2 := false, edge3 := false }).bit_count = 8 ∧
      (state_machine_run sampleFullBuild
        { t := 0, held0 := false, held1 := false, edge0 := false, edge1 := true,
          edge2 := false, edge3 := false }).current_char = 65 := by
  decide

/-- C3 amended: in StringBuild, a single bit edge arriving with
`bit_count = 8` appends the completed character and restarts the
accumulator with the received bit, PROVIDED the buffer has room
(`string_length < 63`); at capacity the edge is ignored entirely. -/
theorem C3_rollover (m : Machine) (i : TickInput)
    (hc : m.current = .stringBuild) (hbc : m.bit_count = 8)
    (hlen : m.string_length < 63) (hh : i.held0 = false)
    (e2 : i.edge2 = false) (e3 : i.edge3 = false) (hbit : i.edge0 ≠ i.edge1) :
    (state_machine_run m i).string_length = m.string_length + 1 ∧
    (state_machine_run m i).bit_count = 1 ∧
    (state_machine_run m i).current_char = (if i.edge1 then 1 else 0) ∧
    (state_machine_run m i).string_buffer =
      (m.string_buffer.set m.string_length m.current_char).set (m.string_length + 1) 0 ∧
    (state_machine_run m i).current = .stringBuild := by
  have hcs := check_standby_current_of_not_held0 m i hh
  simp only [state_machine_run, hc, string_build_state_run, hcs]
  rw [if_neg (by simp [hcs, hc])]
  simp only [string_build_btn3_step_no_edge _ _ e3, string_build_btn2_step_no_edge _ _ e2]
  cases he0 : i.edge0
  · have he1 : i.edge1 = true := by
      cases h1 : i.edge1
      · rw [he0, h1] at hbit; exact absurd rfl hbit
      · rfl
    rw [string_build_btn0_step_no_edge _ _ he0,
      string_build_btn1_step_rollover _ _ he1 (by simpa using hbc) (by simpa using hlen)]
    simp [he1, hcs, hc]
  · have he1 : i.edge1 = false := by
      cases h1 : i.edge1
      · rfl
      · rw [he0, h1] at hbit; exact absurd rfl hbit
    rw [string_build_btn0_step_rollover _ _ he0 (by simpa using hbc) (by simpa using hlen)]
    rw [string_build_btn1_step_no_edge _ _ he1]
    simp [he1, hcs, hc]

/-- Witness for the amended C3 at a concrete input: one bit-1 edge in
StringBuild with 8 bits pending and room commits and reseeds the
accumulator with 1. -/
theorem C3_rollover_witness :
    (state_machine_run { sampleBuild with bit_count := 8, current_char := 85 }
        { t := 0, held0 := false, held1 := false, edge0 := false, edge1 := true,
          edge2 := false, edge3 := false }).string_length = 0 + 1 ∧
      (state_machine_run { sampleBuild with bit_count := 8, current_char := 85 }
        { t := 0, held0 := false, held1 := false, edge0 := false, edge1 := true,
          edge2 := false, edge3 := false }).bit_count = 1 :=
  ⟨(C3_rollover { sampleBuild with bit_count := 8, current_char := 85 }
      { t := 0, held0 := false, held1 := false, edge0 := false, edge1 := true,
        edge2 := false, edge3 := false } rfl rfl (by decide) rfl rfl rfl
      (by decide)).1,
    (C3_rollover { sampleBuild with bit_count := 8, current_char := 85 }
      { t := 0, held0 := false, held1 := false, edge0 := false, edge1 := true,
        edge2 := false, edge3 := false } rfl rfl (by decide) rfl rfl rfl
      (by decide)).2.1⟩

/-- C7 counterexample: a delete edge together with a finalize edge in the
same StringBuild tick leaves the machine in StringConfirm at the end of the
tick, not in CharEntry as the claim states (the string is still wiped). -/
theorem C7_counterexample :
    (state_machine_run { sampleBuild with string_length := 5, bit_count := 2 }
        { t := 0, held0 := false, held1 := false, edge0 := false, edge1 := false,
          edge2 := true, edge3 := true }).current = .stringConfirm ∧
      (state_machine_run { sampleBuild with string_length := 5, bit_count := 2 }
        { t := 0, held0 := false, held1 := false, edge0 := false, edge1 := false,
          edge2 := true, edge3 := true }).current ≠ .charEntry ∧
      (state_machine_run { sampleBuild with string_length := 5, bit_count := 2 }
        { t := 0, held0 := false, held1 := false, edge0 := false, edge1 := false,
          edge2 := true, edge3 := true }).string_length = 0 := by
  decide

/-- C7 amended: a delete edge processed in StringBuild or StringConfirm
always ends the tick with `string_length = 0`; the tick ends in CharEntry
whenever the state was StringConfirm or no finalize edge arrived in the
same tick (a simultaneous finalize edge in StringBuild moves on to
StringConfirm, with the string still wiped). -/
theorem C7_delete_wipes (m : Machine) (i : TickInput)
    (hc : m.current = .stringBuild ∨ m.current = .stringConfirm)
    (he2 : i.edge2 = true) (hh : i.held0 = false)
    (e0 : i.edge0 = false) (e1 : i.edge1 = false) :
    (state_machine_run m i).string_length = 0 ∧
      ((m.current = .stringConfirm ∨ i.edge3 = false) →
        (state_machine_run m i).current = .charEntry) := by
  have hcs := check_standby_current_of_not_held0 m i hh
  rcases hc with hc | hc
  · simp only [state_machine_run, hc, string_build_state_run, hcs]
    rw [if_neg (by simp [hcs, hc])]
    simp only [string_build_btn1_step_no_edge _ _ e1, string_build_btn0_step_no_edge _ _ e0]
    rw [string_build_btn2_step_delete _ _ he2]
    cases he3 : i.edge3
    · rw [string_build_btn3_step_no_edge _ _ he3]
      simp
    · rw [string_build_btn3_step_finalize_no_append _ _ he3 (by simp)]
      refine ⟨by simp, ?_⟩
      rintro (hconf | habs)
      · simp at hconf
      · simp at habs
  · simp only [state_machine_run, hc, string_confirm_state_run, hcs]
    rw [if_neg (by simp [hcs, hc])]
    rw [string_confirm_btn2_step_delete _ _ he2]
    cases he3 : i.edge3
    · rw [string_confirm_btn3_step_no_edge _ _ he3]
      simp
    · rw [string_confirm_btn3_step_send _ _ he3]
      simp

/-- Witness for the amended C7 at a concrete input: delete alone in
StringBuild wipes the string and returns to CharEntry. -/
theorem C7_delete_wipes_witness :
    (state_machine_run { sampleBuild with string_length := 7 }
        { t := 0, held0 := false, held1 := false, edge0 := false, edge1 := false,
          edge2 := true, edge3 := false }).string_length = 0 ∧
      (state_machine_run { sampleBuild with string_length := 7 }
        { t := 0, held0 := false, held1 := false, edge0 := false, edge1 := false,
          edge2 := true, edge3 := false }).current = .charEntry :=
  ⟨(C7_delete_wipes { sampleBuild with string_length := 7 }
      { t := 0, held0 := false, held1 := false, edge0 := false, edge1 := false,
        edge2 := true, edge3 := false } (Or.inl rfl) rfl rfl rfl rfl).1,
    (C7_delete_wipes { sampleBuild with string_length := 7 }
      { t := 0, held0 := false, held1 := false, edge0 := false, edge1 := false,
        edge2 := true, edge3 := false } (Or.inl rfl) rfl rfl rfl rfl).2 (Or.inr rfl)⟩

/-- C1 counterexample: the dispatcher does NOT stop the tick after a
button-requested transition; with a delete edge and a finalize edge in the
same StringBuild tick, the delete transition to CharEntry is followed,
within the same tick, by the finalize transition, so the tick ends in
StringConfirm rather than in CharEntry as the claim states. -/
theorem C1_counterexample :
    (state_machine_run sampleBuild
        { t := 0, held0 := false, held1 := false, edge0 := false, edge1 := false,
          edge2 := true, edge3 := true }).current = .stringConfirm ∧
      (state_machine_run sampleBuild
        { t := 0, held0 := false, held1 := false, edge0 := false, edge1 := false,
          edge2 := true, edge3 := true }).current ≠ .charEntry := by
  decide

/-- C1 amended: only the standby-hold detector aborts the remainder of the
tick once it has scheduled a transition (the run handler returns
immediately after its check); a transition requested by a button check
does not stop the later checks of the same tick, so a delete edge plus a
finalize edge in one StringBuild tick produce two transitions and the tick
ends in StringConfirm with the string wiped. -/
theorem C1_one_transition_per_tick :
    (∀ (m : Machine) (i : TickInput), m.current ≠ .standby →
      (check_standby_transition m i).current = .standby →
      state_machine_run m i = check_standby_transition m i) ∧
    (∀ (m : Machine) (i : TickInput), m.current = .stringBuild →
      i.held0 = false → i.edge0 = false → i.edge1 = false →
      i.edge2 = true → i.edge3 = true →
      (state_machine_run m i).current = .stringConfirm ∧
      (state_machine_run m i).string_length = 0) := by
  constructor
  · intro m i hns hst
    cases hc : m.current
    · simp only [state_machine_run, hc, char_entry_state_run]
      rw [if_pos hst]
    · simp only [state_machine_run, hc, string_build_state_run]
      rw [if_pos hst]
    · simp only [state_machine_run, hc, string_confirm_state_run]
      rw [if_pos hst]
    · exact absurd hc hns
  · intro m i hc hh e0 e1 he2 he3
    have hcs := check_standby_current_of_not_held0 m i hh
    simp only [state_machine_run, hc, string_build_state_run, hcs]
    rw [if_neg (by simp [hcs, hc])]
    simp only [string_build_btn1_step_no_edge _ _ e1, string_build_btn0_step_no_edge _ _ e0]
    rw [string_build_btn2_step_delete _ _ he2,
      string_build_btn3_step_finalize_no_append _ _ he3 (by simp)]
    simp

/-- Witness for the amended C1 at a concrete input: when the detector fires
(both trigger buttons held with expired timers), the tick returns right
after the detector, pending button edges notwithstanding. -/
theorem C1_one_transition_per_tick_witness :
    ({ sampleBuild with btn0_held := true, btn1_held := true } : Machine).current ≠
        .standby ∧
      state_machine_run { sampleBuild with btn0_held := true, btn1_held := true }
          { t := 3000, held0 := true, held1 := true, edge0 := false, edge1 := false,
            edge2 := true, edge3 := true } =
        check_standby_transition { sampleBuild with btn0_held := true, btn1_held := true }
          { t := 3000, held0 := true, held1 := true, edge0 := false, edge1 := false,
            edge2 := true, edge3 := true } :=
  ⟨by decide,
    C1_one_transition_per_tick.1 { sampleBuild with btn0_held := true, btn1_held := true }
      { t := 3000, held0 := true, held1 := true, edge0 := false, edge1 := false,
        edge2 := true, edge3 := true } (by decide) (by decide)⟩

/-- A concrete run for claim C2: five bit-1 presses in CharEntry build a
half-entered character (5 bits, accumulator 31). -/
def excursionPre : Machine :=
  (List.range 5).foldl (fun mm k => state_machine_run mm (bitInput k true))
    state_machine_init

/-- Both trigger buttons start being held at clock value 5. -/
def excursionHeld : Machine :=
  state_machine_run excursionPre
    { t := 5, held0 := true, held1 := true, edge0 := false, edge1 := false,
      edge2 := false, edge3 := false }

/-- At clock value 3005 both hold durations reach 3000 ms, so the detector
enters Standby (the detector compares clock readings, so the 3000 ms dual
hold is realized here with two clock samples; at 1 ms per tick the same
transition happens after 3001 consecutive held ticks, cf. the C6 theorem). -/
def excursionStandby : Machine :=
  state_machine_run excursionHeld
    { t := 3005, held0 := true, held1 := true, edge0 := false, edge1 := false,
      edge2 := false, edge3 := false }

/-- A BTN0 press edge in Standby resumes the saved state. -/
def excursionBack : Machine :=
  state_machine_run excursionStandby
    { t := 3006, held0 := false, held1 := false, edge0 := true, edge1 := false,
      edge2 := false, edge3 := false }

/-- C2 counterexample: the machine enters Standby from CharEntry with
session state `bit_count = 5`, `current_char = 31`; the button press does
return it to CharEntry, but re-entering CharEntry runs its entry action,
which resets `current_char` and `bit_count` to 0 — the half-entered
character does NOT survive the excursion, contradicting the claim that all
four session-state fields come back unchanged. -/
theorem C2_counterexample :
    excursionHeld.current = .charEntry ∧
      excursionHeld.bit_count = 5 ∧ excursionHeld.current_char = 31 ∧
      excursionStandby.current = .standby ∧
      excursionStandby.previous_state = .charEntry ∧
      excursionStandby.bit_count = 5 ∧ excursionStandby.current_char = 31 ∧
      excursionBack.current = .charEntry ∧
      excursionBack.bit_count = 0 ∧ excursionBack.current_char = 0 := by
  decide

/-- C2 amended: a Standby tick without a press edge stays in Standby and
leaves the four session-state fields untouched; a press edge returns the
machine exactly to the saved `previous_state` with `string_buffer` and
`string_length` unchanged, but the resumed state's entry action runs
again, so `current_char` and `bit_count` are preserved only when resuming
StringConfirm and are reset to 0 when resuming CharEntry or StringBuild. -/
theorem C2_standby_restore :
    (∀ (m : Machine) (i : TickInput), m.current = .standby →
      i.edge0 = false → i.edge1 = false → i.edge2 = false → i.edge3 = false →
      (state_machine_run m i).current = .standby ∧
      (state_machine_run m i).string_buffer = m.string_buffer ∧
      (state_machine_run m i).string_length = m.string_length ∧
      (state_machine_run m i).current_char = m.current_char ∧
      (state_machine_run m i).bit_count = m.bit_count) ∧
    (∀ (m : Machine) (i : TickInput), m.current = .standby →
      (i.edge0 || i.edge1 || i.edge2 || i.edge3) = true →
      (state_machine_run m i).current = m.previous_state ∧
      (state_machine_run m i).string_buffer = m.string_buffer ∧
      (state_machine_run m i).string_length = m.string_length ∧
      (m.previous_state = .stringConfirm →
        (state_machine_run m i).current_char = m.current_char ∧
        (state_machine_run m i).bit_count = m.bit_count) ∧
      ((m.previous_state = .charEntry ∨ m.previous_state = .stringBuild) →
        (state_machine_run m i).current_char = 0 ∧
        (state_machine_run m i).bit_count = 0)) := by
  constructor
  · intro m i hc h0 h1 h2 h3
    simp only [state_machine_run, hc, standby_state_run,
      standby_button_step_no_edge _ _ h0 h1 h2 h3]
    simp [hc]
  · intro m i hc he
    have hb : standby_button_step (standby_pwm_step m) i =
        smf_set_state (standby_pwm_step m) (standby_pwm_step m).previous_state := by
      simp [standby_button_step, he]
    simp only [state_machine_run, hc, standby_state_run, hb,
      standby_pwm_step_previous_state]
    refine ⟨by simp, by simp, by simp, ?_, ?_⟩
    · intro hp
      rw [hp]
      simp
    · rintro (hp | hp) <;> rw [hp] <;> simp

/-- Witness for the amended C2 at a concrete input: a press edge in a
Standby context saved from StringConfirm restores the state with the
session fields intact. -/
theorem C2_standby_restore_witness :
    (state_machine_run
        { sampleStandby with previous_state := .stringConfirm, string_length := 3,
                             current_char := 9, bit_count := 4 }
        { t := 0, held0 := false, held1 := false, edge0 := false, edge1 := false,
          edge2 := true, edge3 := false }).current = .stringConfirm ∧
      (state_machine_run
        { sampleStandby with previous_state := .stringConfirm, string_length := 3,
                             current_char := 9, bit_count := 4 }
        { t := 0, held0 := false, held1 := false, edge0 := false, edge1 := false,
          edge2 := true, edge3 := false }).bit_count = 4 :=
  ⟨(C2_standby_restore.2
      { sampleStandby with previous_state := .stringConfirm, string_length := 3,
                           current_char := 9, bit_count := 4 }
      { t := 0, held0 := false, held1 := false, edge0 := false, edge1 := false,
        edge2 := true, edge3 := false } rfl rfl).1,
    ((C2_standby_restore.2
      { sampleStandby with previous_state := .stringConfirm, string_length := 3,
                           current_char := 9, bit_count := 4 }
      { t := 0, held0 := false, held1 := false, edge0 := false, edge1 := false,
        edge2 := true, edge3 := false } rfl rfl).2.2.2.1 rfl).2⟩

/-- The bit sequence of the worked example: bit1, bit0, bit1, bit0, bit1,
bit0, bit1, bit0. -/
def altBits : List Bool := [true, false, true, false, true, false, true, false]

/-- C4: feeding any sequence of exactly 8 bit edges into CharEntry starting
from an empty accumulator (`bit_count = 0`, `current_char = 0`, as every
path that zeroes `bit_count` also zeroes the accumulator) yields
`current_char` equal to the number whose bit `i` is the `(i+1)`-th edge,
least-significant bit first, with all 8 bits counted. -/
theorem C4_lsb_first_accumulation (bs : List Bool) (m : Machine)
    (hc : m.current = .charEntry) (hbc : m.bit_count = 0)
    (hcc : m.current_char = 0) (hlen : bs.length = 8) :
    (feedBits m bs).current_char = bitsVal bs ∧ (feedBits m bs).bit_count = 8 := by
  have h := feedBits_spec bs m hc (by rw [hcc, hbc]; decide) (by omega)
  refine ⟨?_, ?_⟩
  · rw [h.2.2, hcc, hbc]
    simp
  · rw [h.2.1, hbc, hlen]

/-- Witness for C4 at a concrete input: the alternating sequence yields
`current_char = 0x55 = 85` (ASCII 'U'). -/
theorem C4_lsb_first_accumulation_witness :
    (feedBits state_machine_init altBits).current_char = 85 ∧
      (feedBits state_machine_init altBits).bit_count = 8 :=
  ⟨(C4_lsb_first_accumulation altBits state_machine_init rfl rfl rfl
      (by decide)).1.trans (by decide),
    (C4_lsb_first_accumulation altBits state_machine_init rfl rfl rfl (by decide)).2⟩

/-- C6: over any run of consecutive 1 ms ticks (edge-free inputs, clock
reading `t0 + k` at tick `k`) started fresh (non-Standby, both held flags
clear, no clock wraparound within the run), the machine is in Standby
after `n` ticks exactly when at some earlier tick both trigger buttons had
been continuously observed held for at least 3000 ms, measured from each
button's own most recent not-held-to-held transition: a streak of `s`
consecutive held samples ending at tick `k` spans `s - 1` elapsed
milliseconds, so the entry condition is `3001 ≤ streak` for both buttons;
any release resets that button's streak (and hence its credit) to zero. -/
theorem C6_dual_hold_standby (m : Machine) (t0 n : Nat) (f0 f1 : Nat → Bool)
    (hc : m.current ≠ .standby) (h0 : m.btn0_held = false) (h1 : m.btn1_held = false)
    (hU : t0 + n ≤ U32) :
    (feedHolds m t0 f0 f1 n).current = .standby ↔
      ∃ k, k < n ∧ 3001 ≤ streak f0 k ∧ 3001 ≤ streak f1 k := by
  constructor
  · intro hs
    by_contra hno
    have hno' : ∀ k, k < n → ¬(3001 ≤ streak f0 k ∧ 3001 ≤ streak f1 k) :=
      fun k hk hab => hno ⟨k, hk, hab.1, hab.2⟩
    have hcur := (feedHolds_inv m t0 f0 f1 hc h0 h1 n hU hno').1
    rw [hcur] at hs
    exact hc hs
  · rintro ⟨k, hk, ha, hb⟩
    have hexP : ∃ j, 3001 ≤ streak f0 j ∧ 3001 ≤ streak f1 j := ⟨k, ha, hb⟩
    have hj0 := Nat.find_spec hexP
    have hmin : ∀ j, j < Nat.find hexP → ¬(3001 ≤ streak f0 j ∧ 3001 ≤ streak f1 j) :=
      fun j hj => Nat.find_min hexP hj
    have hj0k : Nat.find hexP ≤ k := Nat.find_min' hexP ⟨ha, hb⟩
    have hj0n : Nat.find hexP < n := lt_of_le_of_lt hj0k hk
    have hfirestep : (feedHolds m t0 f0 f1 (Nat.find hexP + 1)).current = .standby :=
      feedHolds_fire m t0 f0 f1 hc h0 h1 (Nat.find hexP) (by omega) hmin hj0
    have hstable := feedHolds_standby_stable m t0 f0 f1 (Nat.find hexP + 1) hfirestep
      (n - (Nat.find hexP + 1))
    rwa [show Nat.find hexP + 1 + (n - (Nat.find hexP + 1)) = n by omega] at hstable

/-- Witness for C6 at a concrete input: holding both trigger buttons for
3001 consecutive ticks from startup puts the machine in Standby. -/
theorem C6_dual_hold_standby_witness :
    (feedHolds state_machine_init 0 (fun _ => true) (fun _ => true) 3001).current =
      .standby :=
  (C6_dual_hold_standby state_machine_init 0 3001 (fun _ => true) (fun _ => true)
    (by decide) rfl rfl (by decide)).mpr
    ⟨3000, by omega, by simp [streak_const_true], by simp [streak_const_true]⟩

end EiE
